import Mathlib

/-!
# Verification of the GPS trajectory analysis pipeline

Shallow embedding of the analysis workers of the records-backend repository
(transport-mode classification, stay detection, trip construction, trajectory
gap completion, outlier detection) together with proofs settling the frozen
claims about them.

Modelling conventions:
* machine floats are modelled by `ℚ` (exact rational arithmetic); timestamps
  and ids by `ℤ`;
* the transcendental haversine geometry (`math.sin`, `math.atan2`, ...) is
  modelled by `Real`-valued definitions where a claim is about the geometry
  itself, and is otherwise passed as an explicit distance/speed function
  parameter so that the surrounding control flow stays executable;
* SQL `NULL` is `Option.none`; Python truthiness of strings is made explicit.
-/

set_option maxHeartbeats 4000000

namespace Records

/-! ## Transport mode worker
Embedding of `scripts/tracks/analysis/transport_mode_worker.py`. -/

/-- A track point as consumed by `TransportModeWorker` (tuple positions
0 = id, 1 = dataTime, 2 = longitude, 3 = latitude, 6 = speed, 8 = altitude,
9 = province). -/
structure TPoint where
  id : Int
  dataTime : Int
  lon : ℚ
  lat : ℚ
  speed : ℚ
  altitude : ℚ
  province : Option String
deriving Repr, DecidableEq

/-- Result of `TransportModeWorker.classify_point`. -/
structure Classification where
  mode : String
  confidence : ℚ
  reasonCodes : List String
deriving Repr, DecidableEq

/-- Python truthiness of an optional string (`None` and `""` are falsy). -/
def provinceTruthy : Option String → Bool
  | none => false
  | some s => s ≠ ""

/-- `TransportModeWorker.classify_point`.  `calcSpeed` stands for the
haversine-based `calculate_speed` helper (km/h between two points); the
effective speed is `max(recorded speed, calcSpeed prev point)` exactly as in
the source. -/
def classifyPoint (calcSpeed : TPoint → TPoint → ℚ) (p : TPoint)
    (prev : Option TPoint) : Classification :=
  let speed : ℚ :=
    match prev with
    | some q => max p.speed (calcSpeed q p)
    | none => p.speed
  let prevProvince : Option String :=
    match prev with
    | some q => q.province
    | none => none
  if p.altitude > 1000 ∧ 200 ≤ speed ∧ speed ≤ 1000 then
    ⟨"FLIGHT", 95/100, ["HIGH_ALTITUDE", "FLIGHT_SPEED_RANGE"]⟩
  else
    let crossesProvince : Bool :=
      provinceTruthy prevProvince && provinceTruthy p.province &&
        (prevProvince != p.province)
    if 80 ≤ speed ∧ speed ≤ 350 then
      if crossesProvince then
        ⟨"TRAIN", 85/100, ["TRAIN_SPEED_RANGE", "CROSSES_PROVINCE"]⟩
      else
        ⟨"CAR", 70/100, ["HIGH_SPEED"]⟩
    else if 20 ≤ speed ∧ speed ≤ 120 then
      ⟨"CAR", 75/100, ["CAR_SPEED_RANGE"]⟩
    else if 1 ≤ speed ∧ speed < 10 then
      ⟨"WALK", 80/100, ["WALKING_SPEED"]⟩
    else if speed < 1 then
      ⟨"STAY", 90/100, ["STATIONARY"]⟩
    else
      ⟨"UNKNOWN", 50/100, ["NO_MATCHING_RULE"]⟩

/-- A `segments` table row as built by `TransportModeWorker.create_segment`. -/
structure Segment where
  mode : Option String
  startTime : Int
  endTime : Int
  startPointId : Int
  endPointId : Int
  pointCount : Nat
  distanceM : ℚ
  durationS : Int
  avgSpeedKmh : ℚ
  maxSpeedKmh : ℚ
  confidence : ℚ
  reasonCodes : List String
deriving Repr, DecidableEq

/-- Cumulative haversine distance over consecutive points (the loop inside
`create_segment`); `distM` stands for the haversine distance in meters. -/
def pairwiseDistance (distM : TPoint → TPoint → ℚ) : List TPoint → ℚ
  | p :: q :: rest => distM p q + pairwiseDistance distM (q :: rest)
  | _ => 0

/-- `max([p[6] for p in points])` over a nonempty list of points. -/
def maxRecordedSpeed (p : TPoint) (rest : List TPoint) : ℚ :=
  rest.foldl (fun m q => max m q.speed) p.speed

/-- `TransportModeWorker.create_segment` (returns `None` on an empty list). -/
def createSegment (distM : TPoint → TPoint → ℚ) (pts : List TPoint)
    (mode : Option String) (confidence : ℚ) (reasonCodes : List String) :
    Option Segment :=
  match pts with
  | [] => none
  | first :: rest =>
    let last := rest.getLastD first
    let startTime := first.dataTime
    let endTime := last.dataTime
    let durationS := endTime - startTime
    let totalDistance := pairwiseDistance distM (first :: rest)
    let avgSpeed : ℚ :=
      if durationS > 0 then (totalDistance / 1000) / ((durationS : ℚ) / 3600)
      else 0
    some { mode := mode, startTime := startTime, endTime := endTime,
           startPointId := first.id, endPointId := last.id,
           pointCount := (first :: rest).length,
           distanceM := totalDistance, durationS := durationS,
           avgSpeedKmh := avgSpeed,
           maxSpeedKmh := maxRecordedSpeed first rest,
           confidence := confidence, reasonCodes := reasonCodes }

/-- State of the segmentation loop in `TransportModeWorker.process_batch`:
accumulated segments, the points of the open segment, and the mode /
confidence / reason codes recorded when the open segment was started. -/
structure SegState where
  segments : List Segment
  curPoints : List TPoint
  curMode : Option String
  curConf : ℚ
  curReasons : List String
deriving Repr, DecidableEq

/-- Closing the open segment (the `if current_segment_points: ...` blocks). -/
def closeSegment (distM : TPoint → TPoint → ℚ) (st : SegState) : List Segment :=
  match createSegment distM st.curPoints st.curMode st.curConf st.curReasons with
  | some seg => st.segments ++ [seg]
  | none => st.segments

/-- One iteration of the `for point, classification in classifications` loop. -/
def segStep (distM : TPoint → TPoint → ℚ) (st : SegState)
    (pc : TPoint × Classification) : SegState :=
  if some pc.2.mode ≠ st.curMode then
    { segments := closeSegment distM st,
      curPoints := [pc.1],
      curMode := some pc.2.mode,
      curConf := pc.2.confidence,
      curReasons := pc.2.reasonCodes }
  else
    { st with curPoints := st.curPoints ++ [pc.1] }

/-- Pair each point with its predecessor (`points[i-1] if i > 0 else None`). -/
def withPrev (pts : List TPoint) : List (TPoint × Option TPoint) :=
  pts.zip (none :: pts.map some)

/-- The classification pass of `process_batch`. -/
def classifications (calcSpeed : TPoint → TPoint → ℚ) (pts : List TPoint) :
    List (TPoint × Classification) :=
  (withPrev pts).map fun pq => (pq.1, classifyPoint calcSpeed pq.1 pq.2)

/-- The full segmentation of `TransportModeWorker.process_batch`: classify
every point, fold the mode-change state machine, close the final segment. -/
def processBatchSegments (calcSpeed distM : TPoint → TPoint → ℚ)
    (pts : List TPoint) : List Segment :=
  closeSegment distM
    ((classifications calcSpeed pts).foldl (segStep distM)
      ⟨[], [], none, 0, []⟩)

/-! ## Stay detection worker (SPATIAL strategy)
Embedding of `scripts/tracks/analysis/stay_detection_worker.py`. -/

/-- A track point as consumed by `StayDetectionWorker` (tuple positions
1 = dataTime, 2 = longitude, 3 = latitude, 9..13 = admin labels). -/
structure SPoint where
  dataTime : Int
  lon : ℚ
  lat : ℚ
  province : Option String
  city : Option String
  county : Option String
  town : Option String
  village : Option String
deriving Repr, DecidableEq

/-- A `stay_segments` row as built by
`StayDetectionWorker.create_stay_segment`; the activity type stored in the
JSON metadata is kept as a plain field. -/
structure StaySeg where
  stayType : String
  startTime : Int
  endTime : Int
  durationS : Int
  centerLat : ℚ
  centerLon : ℚ
  radiusM : ℚ
  province : Option String
  city : Option String
  county : Option String
  town : Option String
  village : Option String
  pointCount : Nat
  confidence : ℚ
  reasonCodes : List String
  activityType : String
deriving Repr, DecidableEq

/-- `StayDetectionWorker.classify_stay_type`.  `hourOf` stands for
`datetime.fromtimestamp(t).hour` (an external, timezone-dependent
conversion). -/
def classifyStayType (hourOf : Int → Nat) (startTime : Int)
    (durationS : Int) : String :=
  let h := hourOf startTime
  if 22 ≤ h ∨ h < 6 then "HOME"
  else if 9 ≤ h ∧ h < 18 ∧ durationS > 14400 then "WORK"
  else if durationS < 3600 then "TRANSIT"
  else "VISIT"

/-- `sum(p[3] for p in pts) / len(pts)`. -/
def meanLat (pts : List SPoint) : ℚ := (pts.map (·.lat)).sum / pts.length

/-- `sum(p[2] for p in pts) / len(pts)`. -/
def meanLon (pts : List SPoint) : ℚ := (pts.map (·.lon)).sum / pts.length

/-- `StayDetectionWorker.create_stay_segment` on a nonempty point group;
`distC lat lon cLat cLon` stands for the haversine `calculate_distance` in
meters. -/
def mkSpatialStay (distC : ℚ → ℚ → ℚ → ℚ → ℚ) (hourOf : Int → Nat)
    (stayType : String) (first : SPoint) (rest : List SPoint)
    (cLat cLon : ℚ) : StaySeg :=
  let last := rest.getLastD first
  let startTime := first.dataTime
  let endTime := last.dataTime
  let maxRadius :=
    (first :: rest).foldl (fun m q => max m (distC q.lat q.lon cLat cLon)) 0
  { stayType := stayType, startTime := startTime, endTime := endTime,
    durationS := endTime - startTime,
    centerLat := cLat, centerLon := cLon, radiusM := maxRadius,
    province := first.province, city := first.city, county := first.county,
    town := first.town, village := first.village,
    pointCount := (first :: rest).length,
    confidence := 85/100, reasonCodes := [stayType],
    activityType := classifyStayType hourOf startTime (endTime - startTime) }

/-- The close-current-group step of `detect_spatial_stays` (duration and
size guards, then `create_stay_segment`), with the centroid passed in
exactly as in the source. -/
def spatialCloseAt (distC : ℚ → ℚ → ℚ → ℚ → ℚ) (hourOf : Int → Nat)
    (minDur : Int) (stays : List StaySeg) :
    List SPoint → ℚ → ℚ → List StaySeg
  | [], _, _ => stays
  | first :: rest, cLat, cLon =>
    if 2 ≤ (first :: rest).length ∧
        minDur ≤ (rest.getLastD first).dataTime - first.dataTime then
      stays ++ [mkSpatialStay distC hourOf "SPATIAL" first rest cLat cLon]
    else stays

/-- The final close of `detect_spatial_stays` (centroid recomputed). -/
def spatialClose (distC : ℚ → ℚ → ℚ → ℚ → ℚ) (hourOf : Int → Nat)
    (minDur : Int) (stays : List StaySeg) (cur : List SPoint) :
    List StaySeg :=
  spatialCloseAt distC hourOf minDur stays cur (meanLat cur) (meanLon cur)

/-- The main loop of `StayDetectionWorker.detect_spatial_stays`. -/
def spatialGo (distC : ℚ → ℚ → ℚ → ℚ → ℚ) (hourOf : Int → Nat)
    (radius : ℚ) (minDur : Int) :
    List SPoint → List StaySeg → List SPoint → List StaySeg
  | [], stays, cur => spatialClose distC hourOf minDur stays cur
  | p :: rest, stays, cur =>
    match cur with
    | [] => spatialGo distC hourOf radius minDur rest stays [p]
    | first :: curRest =>
      let cLat := meanLat (first :: curRest)
      let cLon := meanLon (first :: curRest)
      if distC p.lat p.lon cLat cLon ≤ radius then
        spatialGo distC hourOf radius minDur rest stays
          ((first :: curRest) ++ [p])
      else
        spatialGo distC hourOf radius minDur rest
          (spatialCloseAt distC hourOf minDur stays (first :: curRest)
            cLat cLon)
          [p]

/-- `StayDetectionWorker.detect_spatial_stays` (defaults: radius 100 m,
minimum duration 7200 s). -/
def detectSpatialStays (distC : ℚ → ℚ → ℚ → ℚ → ℚ) (hourOf : Int → Nat)
    (radius : ℚ) (minDur : Int) (pts : List SPoint) : List StaySeg :=
  spatialGo distC hourOf radius minDur pts [] []

/-! ## Stay annotation worker
Embedding of `scripts/tracks/analysis/stay_annotation_worker.py`.  The hour
of day and the weekday flag are external `datetime` conversions of the stay
start time, so they are taken as direct arguments. -/

/-- `StayAnnotationWorker.get_time_of_day` (dict iterated in insertion
order: NIGHT wraps around midnight, then MORNING, AFTERNOON, EVENING). -/
def getTimeOfDay (hour : Nat) : String :=
  if 22 ≤ hour ∨ hour < 6 then "NIGHT"
  else if 6 ≤ hour ∧ hour < 12 then "MORNING"
  else if 12 ≤ hour ∧ hour < 18 then "AFTERNOON"
  else if 18 ≤ hour ∧ hour < 22 then "EVENING"
  else "UNKNOWN"

/-- `StayAnnotationWorker.is_meal_time` (BREAKFAST 7-9, LUNCH 11-13,
DINNER 17-19). -/
def mealTimeOf (hour : Nat) : Option String :=
  if 7 ≤ hour ∧ hour < 9 then some "BREAKFAST"
  else if 11 ≤ hour ∧ hour < 13 then some "LUNCH"
  else if 17 ≤ hour ∧ hour < 19 then some "DINNER"
  else none

/-- `StayAnnotationWorker.infer_stay_purpose` (duration thresholds
SHORT = 3600, MEDIUM = 7200, LONG = 14400). -/
def inferStayPurpose (hour : Nat) (isWeekday : Bool) (durationS : Int)
    (frequency : Int) : String × ℚ :=
  let tod := getTimeOfDay hour
  let meal := mealTimeOf hour
  if tod = "NIGHT" ∧ durationS > 14400 ∧ frequency > 10 then
    ("HOME", 9/10)
  else if isWeekday = true ∧ (tod = "MORNING" ∨ tod = "AFTERNOON") ∧
      durationS > 7200 ∧ frequency > 5 then
    ("WORK", 8/10)
  else if meal.isSome ∧ durationS < 7200 then
    ("MEAL_" ++ meal.getD "", 7/10)
  else if durationS < 3600 then
    ("TRANSIT", 6/10)
  else if (isWeekday = false ∨ tod = "EVENING") ∧ 3600 < durationS ∧
      durationS < 14400 then
    ("VISIT", 1/2)
  else
    ("UNKNOWN", 3/10)

/-- Written from the claim's words (not from the source), for comparison
with `inferStayPurpose`: the claimed activity cascade, whose WORK rule
requires a start hour in [9:00, 18:00). -/
def claimActivityCascade (hour : Nat) (isWeekday : Bool) (durationS : Int)
    (frequency : Int) : String :=
  if (22 ≤ hour ∨ hour < 6) ∧ durationS > 14400 ∧ frequency > 10 then
    "HOME"
  else if isWeekday = true ∧ 9 ≤ hour ∧ hour < 18 ∧ durationS > 7200 ∧
      frequency > 5 then
    "WORK"
  else if (mealTimeOf hour).isSome ∧ durationS < 7200 then
    "MEAL_" ++ (mealTimeOf hour).getD ""
  else if durationS < 3600 then
    "TRANSIT"
  else if (isWeekday = false ∨ (18 ≤ hour ∧ hour < 22)) ∧ 3600 < durationS ∧
      durationS < 14400 then
    "VISIT"
  else
    "UNKNOWN"

/-- The claimed cascade with the WORK daytime window amended to
[6:00, 18:00) (= MORNING union AFTERNOON), which is what the source uses. -/
def amendedActivityCascade (hour : Nat) (isWeekday : Bool) (durationS : Int)
    (frequency : Int) : String :=
  if (22 ≤ hour ∨ hour < 6) ∧ durationS > 14400 ∧ frequency > 10 then
    "HOME"
  else if isWeekday = true ∧ 6 ≤ hour ∧ hour < 18 ∧ durationS > 7200 ∧
      frequency > 5 then
    "WORK"
  else if (mealTimeOf hour).isSome ∧ durationS < 7200 then
    "MEAL_" ++ (mealTimeOf hour).getD ""
  else if durationS < 3600 then
    "TRANSIT"
  else if (isWeekday = false ∨ (18 ≤ hour ∧ hour < 22)) ∧ 3600 < durationS ∧
      durationS < 14400 then
    "VISIT"
  else
    "UNKNOWN"

/-! ## Trip construction worker
Embedding of `scripts/tracks/analysis/trip_construction_worker.py`.  The
stay rows consumed by `get_all_stays` are `StaySeg` values (the JSON
metadata's `activity_type` is the `activityType` field); a trip references
its origin/destination stay by value. -/

/-- A `trips` row as built by `TripConstructionWorker.run`. -/
structure Trip where
  date : String
  tripNumber : Nat
  originStay : StaySeg
  destStay : StaySeg
  startTime : Int
  endTime : Int
  durationS : Int
  distanceM : ℚ
  segmentCount : Nat
  modes : List (Option String)
  tripType : String
deriving Repr, DecidableEq

/-- Stable insertion into a list sorted by an integer key. -/
def insertByKey (key : α → Int) (p : α) : List α → List α
  | [] => [p]
  | q :: rest =>
    if key p ≤ key q then p :: q :: rest else q :: insertByKey key p rest

/-- Stable sort by an integer key (models SQL `ORDER BY` / Python
`sorted`). -/
def sortByKey (key : α → Int) : List α → List α
  | [] => []
  | p :: rest => insertByKey key p (sortByKey key rest)

/-- `TripConstructionWorker.classify_trip_type`. -/
def classifyTripType (origin dest : StaySeg) : String :=
  if (origin.activityType = "HOME" ∧ dest.activityType = "WORK") ∨
      (origin.activityType = "WORK" ∧ dest.activityType = "HOME") then
    "COMMUTE"
  else if origin.county = dest.county then "ROUND_TRIP"
  else "ONE_WAY"

/-- `get_segments_between_stays`: segments with `start_time >= a` and
`end_time <= b`, ordered by start time. -/
def segmentsBetween (segments : List Segment) (a b : Int) : List Segment :=
  sortByKey (·.startTime)
    (segments.filter fun g => decide (a ≤ g.startTime) &&
      decide (g.endTime ≤ b))

/-- The per-date trip counter (`trips_by_date`). -/
def bumpDate (counts : List (String × Nat)) (d : String) :
    Nat × List (String × Nat) :=
  let n := ((counts.lookup d).getD 0) + 1
  (n, (d, n) :: counts.filter fun e => e.1 ≠ d)

/-- One trip record of `TripConstructionWorker.run` (the Python
`modes_used = list(set(...))` has unspecified order; it is modelled as the
first-occurrence deduplication of the mode list). -/
def mkTrip (segments : List Segment) (d : String) (n : Nat)
    (s1 s2 : StaySeg) : Trip :=
  let between := segmentsBetween segments s1.endTime s2.startTime
  { date := d, tripNumber := n, originStay := s1, destStay := s2,
    startTime := s1.endTime, endTime := s2.startTime,
    durationS := s2.startTime - s1.endTime,
    distanceM := (between.map (·.distanceM)).sum,
    segmentCount := between.length,
    modes := (between.map (·.mode)).dedup,
    tripType := classifyTripType s1 s2 }

/-- The `for i in range(len(stays) - 1)` loop of
`TripConstructionWorker.run`; `dateOf` stands for
`datetime.fromtimestamp(t).strftime` on the origin stay's end time. -/
def constructTripsGo (dateOf : Int → String) (segments : List Segment)
    (counts : List (String × Nat)) : List StaySeg → List Trip
  | s1 :: s2 :: rest =>
    let d := dateOf s1.endTime
    let r := bumpDate counts d
    mkTrip segments d r.1 s1 s2 ::
      constructTripsGo dateOf segments r.2 (s2 :: rest)
  | _ => []

/-- `TripConstructionWorker.run` restricted to its pure core: one trip per
consecutive pair of the (chronologically ordered) stay list. -/
def constructTrips (dateOf : Int → String) (segments : List Segment)
    (stays : List StaySeg) : List Trip :=
  constructTripsGo dateOf segments [] stays

/-! ## Trajectory completion worker
Embedding of `scripts/tracks/analysis/trajectory_completion_worker.py`. -/

/-- A full point row as selected by the analysis workers (columns id,
dataTime, longitude, latitude, heading, accuracy, speed, distance,
altitude, province, city, county, town, village). -/
structure RawPoint where
  id : Int
  dataTime : Int
  lon : ℚ
  lat : ℚ
  heading : ℚ
  accuracy : ℚ
  speed : ℚ
  distance : ℚ
  altitude : ℚ
  province : Option String
  city : Option String
  county : Option String
  town : Option String
  village : Option String
deriving Repr, DecidableEq

/-- Projection of a point row to the tuple shape used by the transport
mode worker. -/
def toTPoint (r : RawPoint) : TPoint :=
  ⟨r.id, r.dataTime, r.lon, r.lat, r.speed, r.altitude, r.province⟩

/-- Projection of a point row to the tuple shape used by the stay
detection worker. -/
def toSPoint (r : RawPoint) : SPoint :=
  ⟨r.dataTime, r.lon, r.lat, r.province, r.city, r.county, r.town, r.village⟩

/-- Python `int(...)` on a real value: truncation toward zero. -/
def pyTrunc (q : ℚ) : Int := if 0 ≤ q then ⌊q⌋ else ⌈q⌉

/-- `TrajectoryCompletionWorker.calculate_speed` (m, s → km/h). -/
def calcSpeedKmh (dist : ℚ) (timeDiff : Int) : ℚ :=
  if timeDiff = 0 then 0 else (dist / timeDiff) * (36/10)

/-- `num_points = max(1, time_diff // 600)` (one point every 10 minutes of
gap; `//` is Python floor division). -/
def numInterpPoints (timeDiff : Int) : Nat := (max 1 (Int.fdiv timeDiff 600)).toNat

/-- A synthetic point as built by
`TrajectoryCompletionWorker.interpolate_points`. -/
structure SynthPoint where
  dataTime : Int
  lon : ℚ
  lat : ℚ
  altitude : ℚ
  isSynthetic : Bool
  syntheticSource : String
  startId : Int
  endId : Int
  interpolationRatio : ℚ
deriving Repr, DecidableEq

/-- One iteration of the `for i in range(1, num_points + 1)` loop of
`TrajectoryCompletionWorker.interpolate_points` (`k` is the 0-based loop
index, so `i = k + 1`). -/
def interpOne (startP endP : RawPoint) (numPoints : Nat)
    (transportType : String) (k : Nat) : SynthPoint :=
  let ratio : ℚ := (k + 1 : ℚ) / (numPoints + 1 : ℚ)
  let alt : ℚ :=
    if transportType = "FLIGHT" then
      if ratio < 1/5 then 10000 * (ratio / (1/5))
      else if ratio > 4/5 then 10000 * ((1 - ratio) / (1/5))
      else 10000
    else 0
  { dataTime := pyTrunc ((startP.dataTime : ℚ) +
      ratio * ((endP.dataTime : ℚ) - (startP.dataTime : ℚ))),
    lon := startP.lon + ratio * (endP.lon - startP.lon),
    lat := startP.lat + ratio * (endP.lat - startP.lat),
    altitude := alt,
    isSynthetic := true,
    syntheticSource := transportType ++ "_INTERPOLATION",
    startId := startP.id, endId := endP.id,
    interpolationRatio := ratio }

/-- `TrajectoryCompletionWorker.interpolate_points`: `numPoints` synthetic
points at ratios `i / (numPoints + 1)`, linear in longitude/latitude/time,
with the three-phase altitude profile for FLIGHT. -/
def interpolatePoints (startP endP : RawPoint) (numPoints : Nat)
    (transportType : String) : List SynthPoint :=
  (List.range numPoints).map (interpOne startP endP numPoints transportType)

/-- `TrajectoryCompletionWorker.detect_gaps`: temporally adjacent pairs
with a time gap over 3600 s and implied speed over 80 km/h (`distM` is the
haversine distance in meters). -/
def detectGaps (distM : RawPoint → RawPoint → ℚ) (pts : List RawPoint) :
    List (RawPoint × RawPoint) :=
  (pts.zip pts.tail).filter fun pq =>
    decide (pq.2.dataTime - pq.1.dataTime > 3600) &&
      decide (calcSpeedKmh (distM pq.1 pq.2)
        (pq.2.dataTime - pq.1.dataTime) > 80)

/-- Count of truthy distinct provinces in a window
(`set(p['province'] for p in window if p['province'])`). -/
def distinctProvinceCount (window : List RawPoint) : Nat :=
  (((window.filterMap (·.province)).filter fun s => s ≠ "").dedup).length

/-- `TrajectoryCompletionWorker.identify_transport_type`. -/
def identifyTransportType (distM : RawPoint → RawPoint → ℚ)
    (window : List RawPoint) : Option String :=
  match window with
  | [] => none
  | [_] => none
  | _ :: _ :: _ =>
    let pairs := window.zip window.tail
    let speeds := pairs.map fun pq =>
      calcSpeedKmh (distM pq.1 pq.2) (pq.2.dataTime - pq.1.dataTime)
    let altitudes := pairs.map fun pq => pq.2.altitude
    let avgSpeed := speeds.sum / speeds.length
    let avgAlt := altitudes.sum / altitudes.length
    if avgAlt > 1000 ∧ 200 ≤ avgSpeed ∧ avgSpeed ≤ 1000 then some "FLIGHT"
    else if 80 ≤ avgSpeed ∧ avgSpeed ≤ 350 ∧ 1 < distinctProvinceCount window
      then some "TRAIN"
    else none

/-- The synthetic points emitted for one qualifying gap in
`TrajectoryCompletionWorker.process_batch`. -/
def gapSyntheticPoints (startP endP : RawPoint) (transportType : String) :
    List SynthPoint :=
  interpolatePoints startP endP
    (numInterpPoints (endP.dataTime - startP.dataTime)) transportType

/-! ## Outlier detection worker
Embedding of `scripts/tracks/analysis/outlier_detection_worker.py`: row
selection, the four detectors, the per-point processing loop with its
`try/except`, and the qa-status derivation. -/

/-- The columns of a track table row read or written by the outlier
detector: the measurement columns selected by its query (time,
coordinates, heading, accuracy, speed, distance, altitude — any of the
four motion/quality columns may be SQL NULL), the synthetic columns, and
the annotation columns it writes. -/
structure TrackRow where
  dataTime : Int
  lon : ℚ
  lat : ℚ
  heading : Option ℚ
  accuracy : Option ℚ
  speed : Option ℚ
  distance : Option ℚ
  altitude : ℚ
  isSynthetic : Option Bool
  syntheticSource : Option String
  outlierFlag : Option Bool
  outlierReasonCodes : Option (List String)
  qaStatus : Option String
deriving Repr, DecidableEq

instance : Inhabited TrackRow :=
  ⟨⟨0, 0, 0, none, none, none, none, 0, none, none, none, none, none⟩⟩

/-- The `WHERE outlier_flag IS NULL` predicate of
`OutlierDetectionWorker.get_unanalyzed_points_query` — the only
eligibility condition of the outlier detector. -/
def outlierQuerySelects (r : TrackRow) : Bool := r.outlierFlag.isNone

/-- The track table row created by the `INSERT` in
`TrajectoryCompletionWorker.process_batch` for a synthetic point: only
time, coordinates, altitude and the synthetic columns are set; heading,
accuracy, speed, distance and every annotation column (including
`outlier_flag`) are left NULL. -/
def insertSyntheticRow (sp : SynthPoint) : TrackRow :=
  { dataTime := sp.dataTime, lon := sp.lon, lat := sp.lat,
    heading := none, accuracy := none, speed := none, distance := none,
    altitude := sp.altitude,
    isSynthetic := some true,
    syntheticSource := some sp.syntheticSource,
    outlierFlag := none, outlierReasonCodes := none, qaStatus := none }

/-- The qa-status derivation in `OutlierDetectionWorker.process_batch`. -/
def qaStatusOf (codes : List String) : String :=
  if ¬ 0 < codes.length then "PASS"
  else if "LOW_ACCURACY" ∈ codes ∧ codes.length = 1 then "WARNING"
  else "FAIL"

/-- `OutlierDetectionWorker.detect_low_accuracy`:
`point.get('accuracy', 0) > self.LOW_ACCURACY_THRESHOLD` (default 100).
The `accuracy` key is always present in the point dict, so the `.get`
default is dead; when the column is SQL NULL the value is Python `None`
and `None > 100` raises `TypeError` in Python 3, modelled as
`Except.error`. -/
def detectLowAccuracy (r : TrackRow) : Except String Bool :=
  match r.accuracy with
  | none => .error "TypeError"
  | some a => .ok (decide (a > 100))

/-- `OutlierDetectionWorker.detect_jump` (`distFn` stands for
`calculate_distance`, the haversine in meters; `MAX_SPEED_THRESHOLD`
default 300 km/h). -/
def detectJump (distFn : ℚ → ℚ → ℚ → ℚ → ℚ) (prev cur : TrackRow) : Bool :=
  let d := distFn prev.lat prev.lon cur.lat cur.lon
  let timeDiff := cur.dataTime - prev.dataTime
  if timeDiff > 3600 then false
  else decide (calcSpeedKmh d timeDiff > 300)

/-- `OutlierDetectionWorker.detect_backtrack` on a window of at least 3
points (indices 0, 1, 2 of the window, as the source indexes them). -/
def detectBacktrack (distFn : ℚ → ℚ → ℚ → ℚ → ℚ) :
    List TrackRow → Bool
  | a :: b :: a2 :: _ =>
    let distAB := distFn a.lat a.lon b.lat b.lon
    let distBA := distFn b.lat b.lon a2.lat a2.lon
    let distAA := distFn a.lat a.lon a2.lat a2.lon
    if distAA > 50 then false
    else if a2.dataTime - a.dataTime > 300 then false
    else if distAB < 10 ∨ distBA < 10 then false
    else true
  | _ => false

/-- `OutlierDetectionWorker.detect_static_drift`
(`STATIC_DRIFT_MIN_POINTS = 3`, `STATIC_DRIFT_DISTANCE = 20`; the Python
`set` of coordinate tuples is modelled by `dedup`). -/
def detectStaticDrift (distFn : ℚ → ℚ → ℚ → ℚ → ℚ)
    (window : List TrackRow) : Bool :=
  if window.length < 3 then false
  else
    let avgLat := (window.map (·.lat)).sum / (window.length : ℚ)
    let avgLon := (window.map (·.lon)).sum / (window.length : ℚ)
    (window.all fun p => decide (distFn p.lat p.lon avgLat avgLon < 20)) &&
      decide (1 < ((window.map fun p => (p.lat, p.lon)).dedup).length)

/-- The body of the per-point loop in
`OutlierDetectionWorker.process_batch` at index `i`: the four detectors
run in order, collecting reason codes (`point_dicts[i-1]`,
`point_dicts[i-2:i+1]`, `point_dicts[i-4:i+1]` are the windows the source
slices); a raised Python exception — here the `TypeError` from a NULL
accuracy — aborts the iteration before any code is produced. -/
def outlierStep (distFn : ℚ → ℚ → ℚ → ℚ → ℚ) (pts : List TrackRow)
    (i : Nat) : Except String (List String) := do
  let r := pts.getD i default
  let lowAcc ← detectLowAccuracy r
  let c1 : List String := if lowAcc then ["LOW_ACCURACY"] else []
  let c2 : List String :=
    if 0 < i ∧ detectJump distFn (pts.getD (i - 1) default) r then ["JUMP"]
    else []
  let c3 : List String :=
    if 2 ≤ i ∧ detectBacktrack distFn ((pts.drop (i - 2)).take 3) then
      ["BACKTRACK"]
    else []
  let c4 : List String :=
    if 4 ≤ i ∧ detectStaticDrift distFn ((pts.drop (i - 4)).take 5) then
      ["STATIC_DRIFT"]
    else []
  pure (c1 ++ c2 ++ c3 ++ c4)

/-- The `UPDATE` of `OutlierDetectionWorker.process_batch` applied to a
row (`json.dumps(reason_codes) if reason_codes else None`). -/
def applyOutlierUpdate (r : TrackRow) (codes : List String) : TrackRow :=
  { r with outlierFlag := some (decide (0 < codes.length)),
           outlierReasonCodes :=
             if 0 < codes.length then some codes else none,
           qaStatus := some (qaStatusOf codes) }

/-- One iteration of the `for i, point in enumerate(point_dicts)` loop
with its `try/except`: on success the row is updated, on an exception the
failure is logged and counted and the `UPDATE` is skipped. -/
def outlierFold (distFn : ℚ → ℚ → ℚ → ℚ → ℚ) (pts : List TrackRow)
    (acc : List TrackRow × Nat) (i : Nat) : List TrackRow × Nat :=
  match outlierStep distFn pts i with
  | .ok codes =>
    (acc.1.set i (applyOutlierUpdate (pts.getD i default) codes), acc.2)
  | .error _ => (acc.1, acc.2 + 1)

/-- `OutlierDetectionWorker.process_batch` over a batch: the resulting
row set and the `failed` counter.  The detectors read the in-memory
`point_dicts` (the original rows), and updates land in the table. -/
def processBatchOutliers (distFn : ℚ → ℚ → ℚ → ℚ → ℚ)
    (pts : List TrackRow) : List TrackRow × Nat :=
  (List.range pts.length).foldl (outlierFold distFn pts) (pts, 0)

/-! ## Density stay detection worker (DBSCAN strategy)
Embedding of `scripts/tracks/workers/stay_detection.py`.  Worker
parameters are the hard-coded attributes of its `__init__`:
`min_duration_s = 1800`, `spatial_eps_m = 200`, `min_samples = 3`,
`max_time_gap_s = 3600`. -/

/-- A point as selected by the density worker's `load_data` (columns id,
dataTime, latitude, longitude, province, city, county). -/
structure DPoint where
  id : Int
  dataTime : Int
  lat : ℚ
  lon : ℚ
  province : Option String
  city : Option String
  county : Option String
deriving Repr, DecidableEq

instance : Inhabited DPoint := ⟨⟨0, 0, 0, 0, none, none, none⟩⟩

/-- The worker's `haversine_distance` (meters), over the reals:
`R * 2 * asin(sqrt(a))` with all four coordinates converted to radians. -/
noncomputable def haversineDistR (lat1 lon1 lat2 lon2 : ℝ) : ℝ :=
  let rad : ℝ → ℝ := fun x => x * Real.pi / 180
  let dlat := rad lat2 - rad lat1
  let dlon := rad lon2 - rad lon1
  let a := Real.sin (dlat / 2) ^ 2 +
    Real.cos (rad lat1) * Real.cos (rad lat2) * Real.sin (dlon / 2) ^ 2
  6371000 * (2 * Real.arcsin (Real.sqrt a))

/-- `eps_degrees = self.spatial_eps_m / 111000` in
`temporal_spatial_dbscan` — a degree-like quantity handed to DBSCAN as its
eps although the metric returns meters. -/
def epsDegrees (spatialEpsM : ℚ) : ℚ := spatialEpsM / 111000

/-- The DBSCAN neighborhood predicate of `temporal_spatial_dbscan`: the
haversine distance in meters of the two points is at most `eps_degrees`. -/
def dbscanNeighbor (spatialEpsM : ℚ) (p q : DPoint) : Prop :=
  haversineDistR p.lat p.lon q.lat q.lon ≤ (epsDegrees spatialEpsM : ℝ)

/-- Indices of the eps-neighborhood of point `i` (the point itself is in
its own neighborhood, as in the sklearn radius query).  The neighborhood
predicate is a parameter (`nbr`) because the source's predicate is the
undecidable real-number comparison `dbscanNeighbor`. -/
def nbhdIdx (nbr : DPoint → DPoint → Bool) (pts : List DPoint) (i : Nat) :
    List Nat :=
  (List.range pts.length).filter fun j =>
    nbr (pts.getD i default) (pts.getD j default)

/-- Core point test: at least `minSamples` points in the neighborhood. -/
def isCorePt (nbr : DPoint → DPoint → Bool) (pts : List DPoint)
    (minSamples : Nat) (i : Nat) : Bool :=
  minSamples ≤ (nbhdIdx nbr pts i).length

/-- The cluster-expansion inner loop of sklearn's `dbscan_inner`: pop an
index, label it if unlabelled, and push the unlabelled neighbors of core
points.  Fuel-bounded recursion; labels are `-1` (noise / unvisited) or a
cluster id. -/
def dbscanExpand (nbr : DPoint → DPoint → Bool) (pts : List DPoint)
    (minSamples : Nat) (clusterId : Int) :
    Nat → List Nat → List Int → List Int
  | 0, _, labels => labels
  | _ + 1, [], labels => labels
  | fuel + 1, i :: stack, labels =>
    if labels.getD i (-1) = -1 then
      let labels2 := labels.set i clusterId
      let pushes :=
        if isCorePt nbr pts minSamples i then
          (nbhdIdx nbr pts i).filter fun v => labels2.getD v (-1) = -1
        else []
      dbscanExpand nbr pts minSamples clusterId fuel (pushes ++ stack) labels2
    else
      dbscanExpand nbr pts minSamples clusterId fuel stack labels

/-- The outer loop of `dbscan_inner`: scan indices in order; every
unlabelled core point seeds a new cluster. -/
def dbscanGo (nbr : DPoint → DPoint → Bool) (pts : List DPoint)
    (minSamples : Nat) : List Nat → List Int → Int → List Int
  | [], labels, _ => labels
  | i :: is, labels, nextCluster =>
    if labels.getD i (-1) ≠ -1 ∨ isCorePt nbr pts minSamples i = false then
      dbscanGo nbr pts minSamples is labels nextCluster
    else
      dbscanGo nbr pts minSamples is
        (dbscanExpand nbr pts minSamples nextCluster
          (pts.length * pts.length + pts.length + 1) [i] labels)
        (nextCluster + 1)

/-- `temporal_spatial_dbscan` with the neighborhood predicate abstracted:
cluster labels for each point (`-1` = noise). -/
def dbscanLabels (nbr : DPoint → DPoint → Bool) (minSamples : Nat)
    (pts : List DPoint) : List Int :=
  dbscanGo nbr pts minSamples (List.range pts.length)
    (List.replicate pts.length (-1)) 0

/-- The non-noise cluster labels present in a labelling, in ascending
order (models `set(labels)` with the noise label discarded). -/
def clusterLabelList (labels : List Int) : List Int :=
  ((List.range (labels.foldr max (-1) + 1).toNat).map fun k => (k : Int)).filter
    fun l => labels.contains l

/-- The points of cluster `l`, in original (time) order. -/
def clusterMembers (pts : List DPoint) (labels : List Int) (l : Int) :
    List DPoint :=
  ((pts.zip labels).filter fun pl => pl.2 = l).map (·.1)

/-- Scan a time-sorted cluster for the first adjacent time gap exceeding
`maxGap`; returns the position of the point after the gap. -/
def firstGapIdxAux (maxGap : Int) : DPoint → List DPoint → Nat → Option Nat
  | _, [], _ => none
  | prev, q :: rest, i =>
    if q.dataTime - prev.dataTime > maxGap then some i
    else firstGapIdxAux maxGap q rest (i + 1)

/-- First excess-gap position of a time-sorted cluster (`None` if all
adjacent gaps are within `maxGap`). -/
def firstGapIdx (maxGap : Int) : List DPoint → Option Nat
  | [] => none
  | p :: rest => firstGapIdxAux maxGap p rest 1

/-- The relabelling loop of `filter_by_temporal_continuity`: every member
of `suffix` has the point with its id looked up in `pts` and its label set
to `newLabel`. -/
def relabelSuffix (pts : List DPoint) (suffix : List DPoint)
    (newLabel : Int) (flabels : List Int) : List Int :=
  suffix.foldl
    (fun acc q => acc.set (pts.findIdx fun r => r.id = q.id) newLabel)
    flabels

/-- Processing of one cluster label in `filter_by_temporal_continuity`:
sort the cluster by time, and if it contains an excess gap, relabel
everything from the first such gap on with a fresh label (the source
`break`s after the first gap). -/
def filterStep (pts : List DPoint) (origLabels : List Int) (maxGap : Int)
    (st : List Int × Int) (l : Int) : List Int × Int :=
  let sorted := sortByKey (·.dataTime) (clusterMembers pts origLabels l)
  match firstGapIdx maxGap sorted with
  | none => st
  | some i => (relabelSuffix pts (sorted.drop i) st.2 st.1, st.2 + 1)

/-- `StayDetectionWorker.filter_by_temporal_continuity` (density
worker). -/
def filterByTemporalContinuity (maxGap : Int) (pts : List DPoint)
    (labels : List Int) : List Int :=
  ((clusterLabelList labels).foldl (filterStep pts labels maxGap)
    (labels, labels.foldr max (-1) + 1)).1

/-- A density-strategy stay as built by the density worker's `process`. -/
structure DStay where
  startTs : Int
  endTs : Int
  durationS : Int
  centerLat : ℚ
  centerLon : ℚ
  pointCount : Nat
  confidence : ℚ
  province : Option String
  city : Option String
  county : Option String
  clusterId : Int
deriving Repr, DecidableEq

/-- Stay extraction in the density worker's `process`: one candidate per
non-noise cluster, dropped if its time span is under `minDur`. -/
def extractStays (minDur : Int) (pts : List DPoint) (labels : List Int) :
    List DStay :=
  (clusterLabelList labels).filterMap fun l =>
    match clusterMembers pts labels l with
    | [] => none
    | m0 :: rest =>
      let startTs := rest.foldl (fun a q => min a q.dataTime) m0.dataTime
      let endTs := rest.foldl (fun a q => max a q.dataTime) m0.dataTime
      let dur := endTs - startTs
      if dur < minDur then none
      else some
        { startTs := startTs, endTs := endTs, durationS := dur,
          centerLat := ((m0 :: rest).map (·.lat)).sum / (m0 :: rest).length,
          centerLon := ((m0 :: rest).map (·.lon)).sum / (m0 :: rest).length,
          pointCount := (m0 :: rest).length,
          confidence := min 1 (((m0 :: rest).length : ℚ) / 10),
          province := m0.province, city := m0.city, county := m0.county,
          clusterId := l }

/-- The density worker's `process`: DBSCAN, temporal-continuity split,
stay extraction, with the worker's hard-coded parameters. -/
def densityStayDetection (nbr : DPoint → DPoint → Bool)
    (pts : List DPoint) : List DStay :=
  extractStays 1800 pts
    (filterByTemporalContinuity 3600 pts (dbscanLabels nbr 3 pts))

/-- The time spans (start, end) of a stay list. -/
def timeSpans (l : List DStay) : List (Int × Int) :=
  l.map fun s => (s.startTs, s.endTs)

/-- Two closed time intervals overlap when their intersection has positive
length. -/
def intervalsOverlap (a b : Int × Int) : Bool :=
  decide (max a.1 b.1 < min a.2 b.2)

/-- Some two distinct entries of the span list overlap in time. -/
def hasOverlappingSpan : List (Int × Int) → Bool
  | [] => false
  | a :: rest => rest.any (intervalsOverlap a) || hasOverlappingSpan rest

/-- Number of adjacent excess time gaps in a (time-ordered) point list. -/
def excessGapCount (maxGap : Int) (pts : List DPoint) : Nat :=
  (pts.zip pts.tail).countP fun pq =>
    decide (pq.2.dataTime - pq.1.dataTime > maxGap)

/-- Number of temporally contiguous candidate groups a labelling carries
(= its distinct non-noise labels). -/
def groupCount (labels : List Int) : Nat := (clusterLabelList labels).length

/-! ## Pipeline state and FULL_RECOMPUTE runs
Model of the derived tables and of one stage run in FULL_RECOMPUTE mode
(`IncrementalAnalyzer.run` + `clear_previous_results`).  Under
FULL_RECOMPUTE the fetch query is `SELECT ... ORDER BY dataTime LIMIT ?`
with no offset and no unprocessed-filter, so every loop iteration fetches
the same first batch; the loop runs until the processed counter reaches
the total, i.e. `ceil(total / batch)` times. -/

/-- The derived-state tables alongside the immutable point table. -/
structure TrackDb where
  points : List RawPoint
  segments : List Segment
  stays : List StaySeg
  trips : List Trip
deriving Repr, DecidableEq

/-- Number of batch iterations of `IncrementalAnalyzer.run` in
FULL_RECOMPUTE mode. -/
def fullRecomputeBatchCount (batchSize total : Nat) : Nat :=
  if batchSize = 0 then 0 else (total + batchSize - 1) / batchSize

/-- All rows inserted over a FULL_RECOMPUTE run: each iteration processes
the same first `batchSize` points (the fetch has no offset). -/
def fullRecomputeOutput (compute : List RawPoint → List α) (batchSize : Nat)
    (pts : List RawPoint) : List α :=
  (List.range (fullRecomputeBatchCount batchSize pts.length)).flatMap
    fun _ => compute (pts.take batchSize)

/-- A FULL_RECOMPUTE run of the transport mode stage:
`clear_previous_results` deletes all segments, then the batch loop inserts
the recomputed ones. -/
def transportModeStage (calcSpeed distM : TPoint → TPoint → ℚ)
    (batchSize : Nat) (db : TrackDb) : TrackDb :=
  { db with
    segments := fullRecomputeOutput
      (fun batch => processBatchSegments calcSpeed distM (batch.map toTPoint))
      batchSize db.points }

/-- A FULL_RECOMPUTE run of the stay detection stage (default `spatial`
mode, radius 100 m, minimum duration 7200 s): `clear_previous_results`
deletes all stay segments, then the batch loop inserts the recomputed
ones. -/
def stayDetectionStage (distC : ℚ → ℚ → ℚ → ℚ → ℚ) (hourOf : Int → Nat)
    (batchSize : Nat) (db : TrackDb) : TrackDb :=
  { db with
    stays := fullRecomputeOutput
      (fun batch => detectSpatialStays distC hourOf 100 7200 (batch.map toSPoint))
      batchSize db.points }

/-- A run of the trip construction stage: `TripConstructionWorker.run`
reads all stays ordered by start time and inserts one trip per
consecutive pair — it has no `clear_previous_results`, so previously
derived trips are kept. -/
def tripConstructionStage (dateOf : Int → String) (db : TrackDb) : TrackDb :=
  { db with trips := db.trips ++
      constructTrips dateOf db.segments (sortByKey (·.startTime) db.stays) }

/-! ## Concrete inputs used by witnesses and counterexamples -/

/-- Trivial stand-in for the haversine speed/distance helpers (two-point
form); the geometric helpers are explicit parameters of the embedded
workers, so concrete runs may instantiate them freely. -/
def geomZeroT : TPoint → TPoint → ℚ := fun _ _ => 0

/-- Trivial stand-in for `calculate_distance` (coordinate form). -/
def geomZeroS : ℚ → ℚ → ℚ → ℚ → ℚ := fun _ _ _ _ => 0

/-- A constant hour-of-day conversion (noon). -/
def noonHourOf : Int → Nat := fun _ => 12

/-- A constant date conversion. -/
def constDateOf : Int → String := fun _ => "1970-01-01"

/-- Previous point of the train/car tie-break instances. -/
def trainPrevPt : TPoint := ⟨1, 0, 113, 23, 0, 0, some "Guangdong"⟩

/-- A point at 150 km/h whose province differs from `trainPrevPt`. -/
def trainCurPt : TPoint := ⟨2, 3600, 114, 24, 150, 0, some "Hunan"⟩

/-- A point at 150 km/h in the same province as `trainPrevPt`. -/
def carCurPt : TPoint := ⟨3, 3600, 114, 24, 150, 0, some "Guangdong"⟩

/-- Three points forming a two-point CAR segment whose two member points
classify with different confidences (0.70 then 0.75), followed by a STAY
point that closes the segment. -/
def c6Points : List TPoint :=
  [⟨1, 0, 0, 0, 150, 0, some "G"⟩,
   ⟨2, 60, 0, 0, 50, 0, some "G"⟩,
   ⟨3, 120, 0, 0, 0, 0, some "G"⟩]

/-- A stay row with the given start/end times (other fields fixed). -/
def testStay (s e : Int) : StaySeg :=
  ⟨"SPATIAL", s, e, e - s, 0, 0, 0, none, none, none, none, none, 2,
    85/100, ["SPATIAL"], "VISIT"⟩

/-- First of two stays that overlap in time. -/
def overlapStayA : StaySeg := testStay 0 100

/-- Second of two stays that overlap in time (starts before `overlapStayA`
ends). -/
def overlapStayB : StaySeg := testStay 50 200

/-- First of two time-disjoint stays. -/
def disjointStayA : StaySeg := testStay 0 100

/-- Second of two time-disjoint stays. -/
def disjointStayB : StaySeg := testStay 300 400

/-- A database with two time-disjoint stays and no trips. -/
def c4Db : TrackDb := ⟨[], [], [testStay 0 100, testStay 300 400], []⟩

/-- Start point of a 90-minute flight gap. -/
def gapStartPt : RawPoint :=
  ⟨1, 0, 113, 23, 0, 0, 0, 0, 0, some "Guangdong", none, none, none, none⟩

/-- End point of a 90-minute flight gap (altitude 10000 m). -/
def gapEndPt : RawPoint :=
  ⟨2, 5400, 114, 30, 0, 0, 0, 0, 10000, some "Hubei", none, none, none, none⟩

/-- Stand-in haversine distance putting the two gap points 900 km apart
(implied speed 600 km/h). -/
def gapDistFn : RawPoint → RawPoint → ℚ := fun _ _ => 900000

/-- Density-worker point with trivial admin labels. -/
def dpt (i t : Int) (latv lonv : ℚ) : DPoint :=
  ⟨i, t, latv, lonv, none, none, none⟩

/-- Neighborhood predicate agreeing with `dbscanNeighbor` on points whose
coordinates take only the two values (0, 0) and (0, 180): coincident
points are neighbors (haversine 0 ≤ eps) and the two locations are not
(haversine 6371000·π > eps). -/
def sameCoordNbr : DPoint → DPoint → Bool :=
  fun p q => p.lat == q.lat && p.lon == q.lon

/-- Six points alternating between two far-apart locations, each visited
three times, with all adjacent same-location gaps under one hour: DBSCAN
yields two temporally interleaved clusters. -/
def c3DensityPts : List DPoint :=
  [dpt 1 0 0 0, dpt 2 1000 0 180, dpt 3 2500 0 180,
   dpt 4 3000 0 0, dpt 5 4000 0 180, dpt 6 6000 0 0]

/-- Three coincident points with two consecutive excess time gaps
(5000 s > 3600 s twice). -/
def c8Pts : List DPoint := [dpt 1 0 0 0, dpt 2 5000 0 0, dpt 3 10000 0 0]

/-- Two coincident points 7200 s apart (a minimal SPATIAL stay group). -/
def w3Pts : List SPoint :=
  [⟨0, 113, 23, none, none, none, none, none⟩,
   ⟨7200, 113, 23, none, none, none, none, none⟩]

/-- A default segment record (used only to take the head of a segment
list known to be nonempty). -/
def segDefault : Segment := ⟨none, 0, 0, 0, 0, 0, 0, 0, 0, 0, 0, []⟩

/-- Chronological order on stay-detection input points. -/
abbrev timeLE (a b : SPoint) : Prop := a.dataTime ≤ b.dataTime

/-- One stay ends no later than another starts (time-disjointness of
closed intervals, up to a shared endpoint). -/
abbrev stayDisjointLE (a b : StaySeg) : Prop := a.endTime ≤ b.startTime

/-- A stay's duration is at least the configured minimum and equals its
end minus start time, with start ≤ end. -/
abbrev StayWellFormed (minDur : Int) (s : StaySeg) : Prop :=
  minDur ≤ s.durationS ∧ s.durationS = s.endTime - s.startTime ∧
    s.startTime ≤ s.endTime

/-- The segment's confidence and reason codes are those of one of the
classified points, namely the one the segment record names as its first
point (same id and timestamp). -/
def SegFromFirst (L : List (TPoint × Classification)) (seg : Segment) : Prop :=
  ∃ pc ∈ L, seg.startPointId = pc.1.id ∧ seg.startTime = pc.1.dataTime ∧
    seg.confidence = pc.2.confidence ∧ seg.reasonCodes = pc.2.reasonCodes

/-! # Theorems -/

/-- Unpacking `createSegment` on a nonempty list: the record copies its
confidence and reason codes from the arguments, and its first-point id and
start time from the head point. -/
theorem createSegment_cons (distM : TPoint → TPoint → ℚ) (first : TPoint)
    (rest : List TPoint) (mode : Option String) (conf : ℚ)
    (reasons : List String) :
    ∃ seg, createSegment distM (first :: rest) mode conf reasons = some seg ∧
      seg.startPointId = first.id ∧ seg.startTime = first.dataTime ∧
      seg.confidence = conf ∧ seg.reasonCodes = reasons := by
  exact ⟨_, rfl, rfl, rfl, rfl, rfl⟩

/-- Every segment emitted by `closeSegment` either was already accumulated
or is built from the open group with the recorded confidence/reasons. -/
theorem closeSegment_mem (distM : TPoint → TPoint → ℚ) (st : SegState)
    (L : List (TPoint × Classification))
    (hacc : ∀ seg ∈ st.segments, SegFromFirst L seg)
    (hhead : ∀ first curRest, st.curPoints = first :: curRest →
      ∃ pc ∈ L, pc.1 = first ∧ st.curConf = pc.2.confidence ∧
        st.curReasons = pc.2.reasonCodes) :
    ∀ seg ∈ closeSegment distM st, SegFromFirst L seg := by
  intro seg hseg
  unfold closeSegment at hseg
  rcases hcur : st.curPoints with _ | ⟨first, curRest⟩
  · rw [hcur] at hseg
    simp only [createSegment] at hseg
    exact hacc seg hseg
  · rw [hcur] at hseg
    obtain ⟨seg', heq, h1, h2, h3, h4⟩ :=
      createSegment_cons distM first curRest st.curMode st.curConf st.curReasons
    rw [heq] at hseg
    rcases List.mem_append.1 hseg with h | h
    · exact hacc seg h
    · obtain ⟨pc, hpcL, hpc1, hpc2, hpc3⟩ := hhead first curRest hcur
      rcases List.mem_singleton.1 h
      exact ⟨pc, hpcL, by rw [h1, hpc1], by rw [h2, hpc1], by rw [h3, hpc2],
        by rw [h4, hpc3]⟩

/-- Invariant of the segmentation fold: accumulated segments take their
confidence/reasons from the point that opened them, and the open group's
recorded confidence/reasons are those of its head point. -/
theorem segfold_inv (distM : TPoint → TPoint → ℚ)
    (L : List (TPoint × Classification)) :
    ∀ (l : List (TPoint × Classification)) (st : SegState),
      (∀ x ∈ l, x ∈ L) →
      (∀ seg ∈ st.segments, SegFromFirst L seg) →
      (∀ first curRest, st.curPoints = first :: curRest →
        ∃ pc ∈ L, pc.1 = first ∧ st.curConf = pc.2.confidence ∧
          st.curReasons = pc.2.reasonCodes) →
      (st.curPoints = [] → st.curMode = none) →
      ∀ seg ∈ closeSegment distM (l.foldl (segStep distM) st),
        SegFromFirst L seg := by
  intro l
  induction l with
  | nil =>
    intro st _ hacc hhead _
    exact closeSegment_mem distM st L hacc hhead
  | cons x l ih =>
    intro st hsub hacc hhead hne
    rw [List.foldl_cons]
    by_cases hmode : some x.2.mode ≠ st.curMode
    · have hstep : segStep distM st x =
        { segments := closeSegment distM st, curPoints := [x.1],
          curMode := some x.2.mode, curConf := x.2.confidence,
          curReasons := x.2.reasonCodes } := by
        unfold segStep; rw [if_pos hmode]
      rw [hstep]
      refine ih _ (fun y hy => hsub y (List.mem_cons_of_mem x hy)) ?_ ?_ ?_
      · exact closeSegment_mem distM st L hacc hhead
      · intro first curRest hcur
        simp only at hcur
        obtain ⟨h1, _⟩ := List.cons.inj hcur
        exact ⟨x, hsub x (List.mem_cons_self x l), h1, rfl, rfl⟩
      · intro h; simp at h
    · have hstep : segStep distM st x =
        { st with curPoints := st.curPoints ++ [x.1] } := by
        unfold segStep; rw [if_neg hmode]
      rw [hstep]
      push_neg at hmode
      rcases hcur : st.curPoints with _ | ⟨first, curRest⟩
      · exact absurd (hne hcur) (by rw [← hmode]; simp)
      · refine ih _ (fun y hy => hsub y (List.mem_cons_of_mem x hy)) hacc ?_ ?_
        · intro f cr hcur2
          simp only [hcur, List.cons_append] at hcur2
          obtain ⟨h1, _⟩ := List.cons.inj hcur2
          obtain ⟨pc, hpcL, hpc1, hpc2, hpc3⟩ := hhead first curRest hcur
          exact ⟨pc, hpcL, h1 ▸ hpc1, hpc2, hpc3⟩
        · intro h; simp [hcur] at h

/-- C6 (counterexample): in a concrete batch, the CAR segment spanning the
points with ids 1 and 2 is emitted with confidence 0.70 — the
classification of its first point — while the last classified point
belonging to it (id 2) was classified with confidence 0.75, so the
segment's confidence does not equal the last point's. -/
theorem segment_conf_not_from_last_point :
    ((processBatchSegments geomZeroT geomZeroT c6Points).map
        fun s => (s.startPointId, s.endPointId, s.confidence))
      = [(1, 2, 70/100), (3, 3, 90/100)] ∧
    ((classifications geomZeroT c6Points).map
        fun pc => (pc.1.id, pc.2.confidence))
      = [(1, 70/100), (2, 75/100), (3, 90/100)] ∧
    (70 : ℚ)/100 ≠ 75/100 := by
  refine ⟨rfl, rfl, by norm_num⟩

/-- C6 (amended): whenever the segmentation state machine closes a
Segment, the emitted Segment's confidence and reason codes equal those of
the first classified point belonging to that segment (the point whose id
is the segment's start point id), not the last. -/
theorem segment_conf_from_first_point
    (calcSpeed distM : TPoint → TPoint → ℚ) (pts : List TPoint) :
    ∀ seg ∈ processBatchSegments calcSpeed distM pts,
      SegFromFirst (classifications calcSpeed pts) seg := by
  intro seg hseg
  exact segfold_inv distM (classifications calcSpeed pts)
    (classifications calcSpeed pts) ⟨[], [], none, 0, []⟩
    (fun x hx => hx) (by intro s hs; simp at hs) (by intro f cr h; simp at h)
    (fun _ => rfl) seg hseg

/-- C6 (amended, witness): the first segment of the concrete batch indeed
carries the classification of its first point. -/
theorem segment_conf_from_first_point_witness :
    SegFromFirst (classifications geomZeroT c6Points)
      ((processBatchSegments geomZeroT geomZeroT c6Points).headD segDefault) := by
  apply segment_conf_from_first_point
  have hmem : ∀ (l : List Segment) (d : Segment), l.length = 2 →
      l.headD d ∈ l := by
    intro l d hl
    cases l with
    | nil => simp at hl
    | cons a t => simp
  exact hmem _ segDefault rfl

/-- C1: a point whose effective speed (max of recorded speed and the
speed derived from the previous point) lies in [80, 350] km/h and which
does not satisfy the FLIGHT rule is classified TRAIN with confidence 0.85
when its (non-empty) province differs from the previous point's, and CAR
with confidence 0.70 and reason code HIGH_SPEED otherwise. -/
theorem classify_highspeed_tiebreak
    (calcSpeed : TPoint → TPoint → ℚ) (p q : TPoint) (pv qv : String)
    (hp : p.province = some pv) (hq : q.province = some qv)
    (hpv : pv ≠ "") (hqv : qv ≠ "")
    (hlo : 80 ≤ max p.speed (calcSpeed q p))
    (hhi : max p.speed (calcSpeed q p) ≤ 350)
    (hnf : ¬ (p.altitude > 1000 ∧ 200 ≤ max p.speed (calcSpeed q p) ∧
      max p.speed (calcSpeed q p) ≤ 1000)) :
    (pv ≠ qv →
      classifyPoint calcSpeed p (some q) =
        ⟨"TRAIN", 85/100, ["TRAIN_SPEED_RANGE", "CROSSES_PROVINCE"]⟩) ∧
    (pv = qv →
      classifyPoint calcSpeed p (some q) = ⟨"CAR", 70/100, ["HIGH_SPEED"]⟩) := by
  constructor
  · intro hne
    unfold classifyPoint
    simp only [hp, hq]
    rw [if_neg hnf, if_pos ⟨hlo, hhi⟩, if_pos]
    simp [provinceTruthy, hpv, hqv, bne_iff_ne, Ne, Option.some_inj]
    intro h
    exact hne h.symm
  · intro heq
    unfold classifyPoint
    simp only [hp, hq]
    rw [if_neg hnf, if_pos ⟨hlo, hhi⟩, if_neg]
    simp [provinceTruthy, heq]

/-- C1 (witness): two concrete points at 150 km/h — crossing a province
boundary classifies TRAIN (0.85), staying inside one classifies CAR
(0.70, HIGH_SPEED). -/
theorem classify_highspeed_tiebreak_witness :
    classifyPoint geomZeroT trainCurPt (some trainPrevPt) =
      ⟨"TRAIN", 85/100, ["TRAIN_SPEED_RANGE", "CROSSES_PROVINCE"]⟩ ∧
    classifyPoint geomZeroT carCurPt (some trainPrevPt) =
      ⟨"CAR", 70/100, ["HIGH_SPEED"]⟩ :=
  ⟨(classify_highspeed_tiebreak geomZeroT trainCurPt trainPrevPt
      "Hunan" "Guangdong" rfl rfl (by decide) (by decide) (by decide)
      (by decide) (by decide)).1 (by decide),
   (classify_highspeed_tiebreak geomZeroT carCurPt trainPrevPt
      "Guangdong" "Guangdong" rfl rfl (by decide) (by decide) (by decide)
      (by decide) (by decide)).2 rfl⟩

/-- Structure of the trip-construction loop: one trip per consecutive
pair, in order, with start/end copied from the stay endpoints — all
unconditionally; trip.start ≤ trip.end additionally holds whenever
consecutive stays are time-disjoint. -/
theorem constructTripsGo_spec (dateOf : Int → String)
    (segments : List Segment) :
    ∀ (stays : List StaySeg) (counts : List (String × Nat)),
      (constructTripsGo dateOf segments counts stays).length =
          stays.length - 1 ∧
      (constructTripsGo dateOf segments counts stays).map (·.originStay) =
          stays.dropLast ∧
      (constructTripsGo dateOf segments counts stays).map (·.destStay) =
          stays.tail ∧
      (∀ t ∈ constructTripsGo dateOf segments counts stays,
        t.startTime = t.originStay.endTime ∧
        t.endTime = t.destStay.startTime) ∧
      (List.Chain' (fun a b => a.endTime ≤ b.startTime) stays →
        ∀ t ∈ constructTripsGo dateOf segments counts stays,
          t.startTime ≤ t.endTime) := by
  intro stays
  induction stays with
  | nil =>
    intro counts
    exact ⟨rfl, rfl, rfl, by intro t ht; simp [constructTripsGo] at ht,
      by intro _ t ht; simp [constructTripsGo] at ht⟩
  | cons s1 rest ih =>
    intro counts
    cases rest with
    | nil =>
      exact ⟨rfl, rfl, rfl, by intro t ht; simp [constructTripsGo] at ht,
        by intro _ t ht; simp [constructTripsGo] at ht⟩
    | cons s2 rest2 =>
      obtain ⟨ih1, ih2, ih3, ih4, ih5⟩ :=
        ih (bumpDate counts (dateOf s1.endTime)).2
      have hgo : constructTripsGo dateOf segments counts (s1 :: s2 :: rest2) =
          mkTrip segments (dateOf s1.endTime)
              (bumpDate counts (dateOf s1.endTime)).1 s1 s2 ::
            constructTripsGo dateOf segments
              (bumpDate counts (dateOf s1.endTime)).2 (s2 :: rest2) := rfl
      refine ⟨?_, ?_, ?_, ?_, ?_⟩
      · rw [hgo]; simp only [List.length_cons, ih1]; omega
      · rw [hgo]
        show s1 :: _ = (s1 :: s2 :: rest2).dropLast
        rw [show (s1 :: s2 :: rest2).dropLast = s1 :: (s2 :: rest2).dropLast
          from rfl]
        rw [ih2]
      · rw [hgo]
        show s2 :: _ = s2 :: rest2
        rw [ih3]
        rfl
      · rw [hgo]
        intro t ht
        rcases List.mem_cons.1 ht with h | h
        · subst h; exact ⟨rfl, rfl⟩
        · exact ih4 t h
      · intro hchain
        obtain ⟨hrel, hchain2⟩ := List.chain'_cons.1 hchain
        rw [hgo]
        intro t ht
        rcases List.mem_cons.1 ht with h | h
        · subst h; exact hrel
        · exact ih5 hchain2 t h

/-- C2 (counterexample): two stays consumed in chronological order
(sorted by start time, as `get_all_stays` orders them) but with the first
ending after the second starts yield a trip whose start (100) exceeds its
end (50), refuting the claimed invariant `trip.start ≤ trip.end`. -/
theorem trip_start_le_end_counterexample :
    List.Chain' (fun a b : StaySeg => a.startTime ≤ b.startTime)
      [overlapStayA, overlapStayB] ∧
    ((constructTrips constDateOf [] [overlapStayA, overlapStayB]).map
      fun t => (t.startTime, t.endTime)) = [(100, 50)] ∧
    ¬ ((100 : Int) ≤ 50) := by
  refine ⟨List.chain'_pair.2 (by decide), rfl, by decide⟩

/-- C2 (amended): for every stay list the trip constructor emits exactly
one trip per consecutive pair of stays, in the same order as the stays,
with trip.start = origin stay's end and trip.end = destination stay's
start — all unconditionally; trip.start ≤ trip.end additionally holds
provided consecutive stays are time-disjoint (each stay ends no later
than the next one starts) — with overlapping stays the produced trip can
have start > end. -/
theorem trips_one_per_pair (dateOf : Int → String) (segments : List Segment)
    (stays : List StaySeg) :
    (constructTrips dateOf segments stays).length = stays.length - 1 ∧
    (constructTrips dateOf segments stays).map (·.originStay) =
        stays.dropLast ∧
    (constructTrips dateOf segments stays).map (·.destStay) = stays.tail ∧
    (∀ t ∈ constructTrips dateOf segments stays,
      t.startTime = t.originStay.endTime ∧
      t.endTime = t.destStay.startTime) ∧
    (List.Chain' (fun a b => a.endTime ≤ b.startTime) stays →
      ∀ t ∈ constructTrips dateOf segments stays,
        t.startTime ≤ t.endTime) :=
  constructTripsGo_spec dateOf segments stays []

/-- C2 (amended, witness): the amended statement at a concrete pair of
disjoint stays, with the time-disjointness side condition discharged so
the start ≤ end conclusion is reached. -/
theorem trips_one_per_pair_witness :
    (constructTrips constDateOf [] [disjointStayA, disjointStayB]).length =
        [disjointStayA, disjointStayB].length - 1 ∧
    (constructTrips constDateOf [] [disjointStayA, disjointStayB]).map
        (·.originStay) = [disjointStayA, disjointStayB].dropLast ∧
    (constructTrips constDateOf [] [disjointStayA, disjointStayB]).map
        (·.destStay) = [disjointStayA, disjointStayB].tail ∧
    ∀ t ∈ constructTrips constDateOf [] [disjointStayA, disjointStayB],
      t.startTime = t.originStay.endTime ∧
      t.endTime = t.destStay.startTime ∧ t.startTime ≤ t.endTime := by
  obtain ⟨h1, h2, h3, h4, h5⟩ :=
    trips_one_per_pair constDateOf [] [disjointStayA, disjointStayB]
  refine ⟨h1, h2, h3, ?_⟩
  intro t ht
  obtain ⟨ha, hb⟩ := h4 t ht
  exact ⟨ha, hb, h5 (List.chain'_pair.2 (by decide)) t ht⟩

/-- C4 (counterexample): running the trip construction stage twice on an
unchanged database does not reproduce the first run's trip set — the
second run appends a second copy (the worker has no
`clear_previous_results`), so the trip record set is not idempotent. -/
theorem full_recompute_idempotent_counterexample :
    (tripConstructionStage constDateOf c4Db).trips.length = 1 ∧
    (tripConstructionStage constDateOf
        (tripConstructionStage constDateOf c4Db)).trips.length = 2 ∧
    ¬ (1 = 2) := by
  refine ⟨rfl, rfl, by decide⟩

/-- C4 (amended): a FULL_RECOMPUTE rerun on an unchanged point set is
idempotent for the Segment and Stay stages (their
`clear_previous_results` deletes all previous rows before the
deterministic recomputation), but the Trip constructor never clears
previously derived trips, so each run appends one more copy of the
constructed trip set. -/
theorem full_recompute_idempotent_amended
    (calcSpeed distM : TPoint → TPoint → ℚ) (distC : ℚ → ℚ → ℚ → ℚ → ℚ)
    (hourOf : Int → Nat) (dateOf : Int → String) (batchSize : Nat)
    (db : TrackDb) :
    transportModeStage calcSpeed distM batchSize
        (transportModeStage calcSpeed distM batchSize db) =
      transportModeStage calcSpeed distM batchSize db ∧
    stayDetectionStage distC hourOf batchSize
        (stayDetectionStage distC hourOf batchSize db) =
      stayDetectionStage distC hourOf batchSize db ∧
    (tripConstructionStage dateOf (tripConstructionStage dateOf db)).trips =
      db.trips ++
        constructTrips dateOf db.segments (sortByKey (·.startTime) db.stays) ++
        constructTrips dateOf db.segments (sortByKey (·.startTime) db.stays) := by
  refine ⟨rfl, rfl, ?_⟩
  simp [tripConstructionStage, List.append_assoc]

/-- C5 (counterexample): a weekday stay starting at 7:00 with duration
7300 s and frequency 6 — the claimed cascade (WORK daytime window
9:00-18:00) yields UNKNOWN, but the code's `infer_stay_purpose` (daytime
= MORNING or AFTERNOON, i.e. 6:00-18:00) yields WORK. -/
theorem infer_purpose_counterexample :
    (inferStayPurpose 7 true 7300 6).1 = "WORK" ∧
    claimActivityCascade 7 true 7300 6 = "UNKNOWN" ∧
    "WORK" ≠ "UNKNOWN" := ⟨rfl, rfl, by decide⟩

/-- C5 (amended): the activity cascade of `infer_stay_purpose` is exactly
the claimed fixed-priority cascade with the WORK daytime window amended
from [9:00, 18:00) to [6:00, 18:00): NIGHT + >4h + frequency>10 → HOME;
weekday + [6:00, 18:00) + >2h + frequency>5 → WORK; meal window (7-9,
11-13, 17-19) + <2h → MEAL_<type>; <1h → TRANSIT; weekend-or-evening +
1h..4h → VISIT; else UNKNOWN. -/
theorem infer_purpose_cascade (hour : Nat) (wd : Bool) (dur freq : Int)
    (h24 : hour < 24) :
    (inferStayPurpose hour wd dur freq).1 =
      amendedActivityCascade hour wd dur freq := by
  interval_cases hour <;> cases wd <;>
    simp [inferStayPurpose, amendedActivityCascade, getTimeOfDay,
      mealTimeOf] <;>
    split_ifs <;> rfl

/-- C5 (amended, witness): the amended cascade at a concrete WORK stay
(10:00, weekday, 10000 s, frequency 6). -/
theorem infer_purpose_cascade_witness :
    (inferStayPurpose 10 true 10000 6).1 =
      amendedActivityCascade 10 true 10000 6 :=
  infer_purpose_cascade 10 true 10000 6 (by decide)

/-- Python `int(...)` of an integer value is that integer. -/
theorem pyTrunc_intCast (z : Int) : pyTrunc (z : ℚ) = z := by
  unfold pyTrunc
  split_ifs <;> simp

/-- The `k`-th synthetic point of an interpolation run. -/
theorem interpolate_getElem (startP endP : RawPoint) (n : Nat) (ty : String)
    (k : Nat) (hk : k < n) :
    (interpolatePoints startP endP n ty)[k]? =
      some (interpOne startP endP n ty k) := by
  simp [interpolatePoints, List.getElem?_map, List.getElem?_range, hk]

/-- When the gap length is divisible by `numPoints + 1`, the `k`-th
synthetic timestamp is `start + (k+1) * (gap / (numPoints + 1))` — the
points are evenly spaced at `gap / (numPoints + 1)` seconds, not at a
600-second cadence. -/
theorem interpOne_dataTime (startP endP : RawPoint) (n : Nat) (ty : String)
    (k : Nat) (d : Int)
    (hd : endP.dataTime - startP.dataTime = (n + 1) * d) :
    (interpOne startP endP n ty k).dataTime =
      startP.dataTime + (k + 1) * d := by
  show pyTrunc ((startP.dataTime : ℚ) +
      (k + 1 : ℚ) / (n + 1 : ℚ) *
        ((endP.dataTime : ℚ) - (startP.dataTime : ℚ))) = _
  have hcast : (endP.dataTime : ℚ) - (startP.dataTime : ℚ) =
      ((n : ℚ) + 1) * (d : ℚ) := by
    have h2 := congrArg (fun z : Int => (z : ℚ)) hd
    push_cast at h2
    push_cast [h2]
    ring
  rw [hcast]
  have hne : ((n : ℚ) + 1) ≠ 0 := by positivity
  have harith : (startP.dataTime : ℚ) +
      (k + 1 : ℚ) / (n + 1 : ℚ) * (((n : ℚ) + 1) * (d : ℚ)) =
      ((startP.dataTime + (k + 1) * d : Int) : ℚ) := by
    push_cast
    field_simp
    ring
  rw [harith, pyTrunc_intCast]

/-- The three-phase FLIGHT altitude profile of a synthetic point: climb
while the ratio is under 0.2, cruise at 10000 m through [0.2, 0.8],
descend past 0.8. -/
theorem interpOne_altitude_flight (startP endP : RawPoint) (n : Nat)
    (k : Nat) :
    ((k + 1 : ℚ) / (n + 1 : ℚ) < 1/5 →
      (interpOne startP endP n "FLIGHT" k).altitude =
        10000 * (((k + 1 : ℚ) / (n + 1 : ℚ)) / (1/5))) ∧
    (1/5 ≤ (k + 1 : ℚ) / (n + 1 : ℚ) → (k + 1 : ℚ) / (n + 1 : ℚ) ≤ 4/5 →
      (interpOne startP endP n "FLIGHT" k).altitude = 10000) ∧
    (4/5 < (k + 1 : ℚ) / (n + 1 : ℚ) →
      (interpOne startP endP n "FLIGHT" k).altitude =
        10000 * ((1 - (k + 1 : ℚ) / (n + 1 : ℚ)) / (1/5))) := by
  simp only [interpOne, if_pos rfl]
  refine ⟨fun h1 => ?_, fun h1 h2 => ?_, fun h1 => ?_⟩ <;>
    split_ifs <;> first | rfl | linarith

/-- C7 (counterexample): the 90-minute flight gap produces 9 synthetic
points, but their timestamps are 540 s apart (gap / 10), not one every
600 s: the first two synthetic points are at 540 and 1080 seconds. -/
theorem gap_cadence_counterexample :
    numInterpPoints (gapEndPt.dataTime - gapStartPt.dataTime) = 9 ∧
    ((gapSyntheticPoints gapStartPt gapEndPt "FLIGHT").map
      (·.dataTime))[0]? = some 540 ∧
    ((gapSyntheticPoints gapStartPt gapEndPt "FLIGHT").map
      (·.dataTime))[1]? = some 1080 ∧
    (1080 - 540 : Int) ≠ 600 := by
  have h9 : numInterpPoints (gapEndPt.dataTime - gapStartPt.dataTime) = 9 := by
    decide
  have hlist : gapSyntheticPoints gapStartPt gapEndPt "FLIGHT" =
      interpolatePoints gapStartPt gapEndPt 9 "FLIGHT" := by
    unfold gapSyntheticPoints
    rw [h9]
  refine ⟨h9, ?_, ?_, by decide⟩
  · rw [hlist, List.getElem?_map,
      interpolate_getElem gapStartPt gapEndPt 9 "FLIGHT" 0 (by norm_num),
      Option.map_some',
      interpOne_dataTime gapStartPt gapEndPt 9 "FLIGHT" 0 540 (by decide)]
    decide
  · rw [hlist, List.getElem?_map,
      interpolate_getElem gapStartPt gapEndPt 9 "FLIGHT" 1 (by norm_num),
      Option.map_some',
      interpOne_dataTime gapStartPt gapEndPt 9 "FLIGHT" 1 540 (by decide)]
    decide

/-- C7 (amended): for every qualifying gap (time gap > 3600 s, implied
speed > 80 km/h) classified TRAIN or FLIGHT, gap completion emits
`max(1, ⌊gap/600⌋)` synthetic points — evenly spaced at
`gap / (count + 1)` seconds rather than at a fixed 600 s cadence —
linearly interpolating longitude, latitude and timestamp, all tagged
is_synthetic, with FLIGHT gaps getting the three-phase altitude profile
(climb below ratio 0.2, cruise at 10000 m in [0.2, 0.8], descent above
0.8). -/
theorem gap_completion_amended (distM : RawPoint → RawPoint → ℚ)
    (pts : List RawPoint) (p q : RawPoint) (ty : String)
    (hgap : (p, q) ∈ detectGaps distM pts)
    (hty : ty = "TRAIN" ∨ ty = "FLIGHT") :
    (gapSyntheticPoints p q ty).length =
        numInterpPoints (q.dataTime - p.dataTime) ∧
    (∀ sp ∈ gapSyntheticPoints p q ty, sp.isSynthetic = true ∧
        sp.syntheticSource = ty ++ "_INTERPOLATION") ∧
    ∀ k, k < numInterpPoints (q.dataTime - p.dataTime) →
      ∃ sp, (gapSyntheticPoints p q ty)[k]? = some sp ∧
        sp.lon = p.lon +
          (k + 1 : ℚ) / (numInterpPoints (q.dataTime - p.dataTime) + 1 : ℚ) *
            (q.lon - p.lon) ∧
        sp.lat = p.lat +
          (k + 1 : ℚ) / (numInterpPoints (q.dataTime - p.dataTime) + 1 : ℚ) *
            (q.lat - p.lat) ∧
        (∀ d : Int, q.dataTime - p.dataTime =
            (numInterpPoints (q.dataTime - p.dataTime) + 1) * d →
          sp.dataTime = p.dataTime + (k + 1) * d) ∧
        (ty = "FLIGHT" →
          ((k + 1 : ℚ) / (numInterpPoints (q.dataTime - p.dataTime) + 1 : ℚ)
              < 1/5 →
            sp.altitude = 10000 *
              (((k + 1 : ℚ) /
                (numInterpPoints (q.dataTime - p.dataTime) + 1 : ℚ)) /
                (1/5))) ∧
          (1/5 ≤ (k + 1 : ℚ) /
              (numInterpPoints (q.dataTime - p.dataTime) + 1 : ℚ) →
            (k + 1 : ℚ) /
              (numInterpPoints (q.dataTime - p.dataTime) + 1 : ℚ) ≤ 4/5 →
            sp.altitude = 10000) ∧
          (4/5 < (k + 1 : ℚ) /
              (numInterpPoints (q.dataTime - p.dataTime) + 1 : ℚ) →
            sp.altitude = 10000 *
              ((1 - (k + 1 : ℚ) /
                (numInterpPoints (q.dataTime - p.dataTime) + 1 : ℚ)) /
                (1/5)))) := by
  refine ⟨by simp [gapSyntheticPoints, interpolatePoints], ?_, ?_⟩
  · intro sp hsp
    simp only [gapSyntheticPoints, interpolatePoints, List.mem_map] at hsp
    obtain ⟨k, _, rfl⟩ := hsp
    exact ⟨rfl, rfl⟩
  · intro k hk
    refine ⟨interpOne p q (numInterpPoints (q.dataTime - p.dataTime)) ty k,
      interpolate_getElem p q _ ty k hk, rfl, rfl,
      fun d hd => interpOne_dataTime p q _ ty k d (by exact_mod_cast hd),
      fun hf => ?_⟩
    subst hf
    exact interpOne_altitude_flight p q _ k

/-- C7 (amended, witness): the amended statement at the concrete
90-minute flight gap (which `detect_gaps` flags and which carries 9
synthetic points spaced 540 s). -/
theorem gap_completion_amended_witness :
    ((gapSyntheticPoints gapStartPt gapEndPt "FLIGHT").length =
        numInterpPoints (gapEndPt.dataTime - gapStartPt.dataTime) ∧
      (∀ sp ∈ gapSyntheticPoints gapStartPt gapEndPt "FLIGHT",
          sp.isSynthetic = true ∧
          sp.syntheticSource = "FLIGHT" ++ "_INTERPOLATION") ∧
      ∀ k, k < numInterpPoints (gapEndPt.dataTime - gapStartPt.dataTime) →
        ∃ sp, (gapSyntheticPoints gapStartPt gapEndPt "FLIGHT")[k]? =
            some sp ∧
          sp.lon = gapStartPt.lon +
            (k + 1 : ℚ) /
              (numInterpPoints (gapEndPt.dataTime - gapStartPt.dataTime) +
                1 : ℚ) * (gapEndPt.lon - gapStartPt.lon) ∧
          sp.lat = gapStartPt.lat +
            (k + 1 : ℚ) /
              (numInterpPoints (gapEndPt.dataTime - gapStartPt.dataTime) +
                1 : ℚ) * (gapEndPt.lat - gapStartPt.lat) ∧
          (∀ d : Int, gapEndPt.dataTime - gapStartPt.dataTime =
              (numInterpPoints (gapEndPt.dataTime - gapStartPt.dataTime) +
                1) * d →
            sp.dataTime = gapStartPt.dataTime + (k + 1) * d) ∧
          ("FLIGHT" = "FLIGHT" →
            ((k + 1 : ℚ) /
                (numInterpPoints (gapEndPt.dataTime - gapStartPt.dataTime) +
                  1 : ℚ) < 1/5 →
              sp.altitude = 10000 *
                (((k + 1 : ℚ) /
                  (numInterpPoints
                    (gapEndPt.dataTime - gapStartPt.dataTime) + 1 : ℚ)) /
                  (1/5))) ∧
            (1/5 ≤ (k + 1 : ℚ) /
                (numInterpPoints (gapEndPt.dataTime - gapStartPt.dataTime) +
                  1 : ℚ) →
              (k + 1 : ℚ) /
                (numInterpPoints (gapEndPt.dataTime - gapStartPt.dataTime) +
                  1 : ℚ) ≤ 4/5 →
              sp.altitude = 10000) ∧
            (4/5 < (k + 1 : ℚ) /
                (numInterpPoints (gapEndPt.dataTime - gapStartPt.dataTime) +
                  1 : ℚ) →
              sp.altitude = 10000 *
                ((1 - (k + 1 : ℚ) /
                  (numInterpPoints
                    (gapEndPt.dataTime - gapStartPt.dataTime) + 1 : ℚ)) /
                  (1/5))))) :=
  gap_completion_amended gapDistFn [gapStartPt, gapEndPt] gapStartPt gapEndPt
    "FLIGHT"
    (by
      simp only [detectGaps, List.zip, List.zipWith, List.tail,
        List.filter, gapStartPt, gapEndPt, gapDistFn, calcSpeedKmh]
      norm_num)
    (Or.inr rfl)

/-- C9 (counterexample): the first synthetic point of the concrete flight
gap is inserted with `outlier_flag` NULL and `is_synthetic` true, the
outlier detector's selection predicate (`WHERE outlier_flag IS NULL`)
selects it, and the detector's per-point loop does process it (the run
aborts with the `TypeError` that `detect_low_accuracy` raises on the NULL
accuracy) — refuting "the outlier detector never evaluates it". -/
theorem synthetic_point_outlier_selected_counterexample :
    (gapSyntheticPoints gapStartPt gapEndPt "FLIGHT")[0]? =
      some (interpOne gapStartPt gapEndPt 9 "FLIGHT" 0) ∧
    (insertSyntheticRow
      (interpOne gapStartPt gapEndPt 9 "FLIGHT" 0)).isSynthetic =
      some true ∧
    outlierQuerySelects
      (insertSyntheticRow (interpOne gapStartPt gapEndPt 9 "FLIGHT" 0)) =
      true ∧
    outlierQuerySelects
      (insertSyntheticRow (interpOne gapStartPt gapEndPt 9 "FLIGHT" 0)) ≠
      false ∧
    detectLowAccuracy
      (insertSyntheticRow (interpOne gapStartPt gapEndPt 9 "FLIGHT" 0)) =
      .error "TypeError" := by
  have h9 : numInterpPoints (gapEndPt.dataTime - gapStartPt.dataTime) = 9 := by
    decide
  refine ⟨?_, rfl, rfl, by decide, rfl⟩
  unfold gapSyntheticPoints
  rw [h9]
  exact interpolate_getElem gapStartPt gapEndPt 9 "FLIGHT" 0 (by norm_num)

/-- If processing a point raises an exception, the batch loop never
touches that row: no other iteration writes its position, and its own
iteration takes the `except` branch. -/
theorem foldOutlier_error_getElem (distFn : ℚ → ℚ → ℚ → ℚ → ℚ)
    (pts : List TrackRow) (i : Nat) (e : String)
    (herr : outlierStep distFn pts i = .error e) :
    ∀ (L : List Nat) (acc : List TrackRow × Nat),
      acc.1[i]? = pts[i]? →
      ((L.foldl (outlierFold distFn pts) acc).1)[i]? = pts[i]? := by
  intro L
  induction L with
  | nil => intro acc hacc; exact hacc
  | cons j rest ih =>
    intro acc hacc
    rw [List.foldl_cons]
    apply ih
    by_cases hji : j = i
    · subst hji
      simp only [outlierFold, herr]
      exact hacc
    · cases hstep : outlierStep distFn pts j with
      | ok codes =>
        simp only [outlierFold, hstep]
        rw [List.getElem?_set, if_neg hji]
        exact hacc
      | error e2 =>
        simp only [outlierFold, hstep]
        exact hacc

/-- C9 (amended): the outlier detector's eligibility predicate tests only
`outlier_flag IS NULL` and never `is_synthetic`, and every synthetic
point is inserted with `outlier_flag` unset, so the detector selects and
processes synthetic points; but because the synthetic `INSERT` leaves the
`accuracy` column NULL, `detect_low_accuracy` raises `TypeError`
(`None > threshold`), the per-point `except` swallows it and skips the
`UPDATE`, so the synthetic row comes out of the batch unchanged — it
never actually receives an outlier flag, reason codes or qa_status. -/
theorem synthetic_rows_selected_never_annotated (sp : SynthPoint)
    (distFn : ℚ → ℚ → ℚ → ℚ → ℚ) (pts : List TrackRow) (i : Nat)
    (hrow : pts[i]? = some (insertSyntheticRow sp)) :
    (insertSyntheticRow sp).isSynthetic = some true ∧
    (insertSyntheticRow sp).outlierFlag = none ∧
    outlierQuerySelects (insertSyntheticRow sp) = true ∧
    outlierStep distFn pts i = .error "TypeError" ∧
    (processBatchOutliers distFn pts).1[i]? =
      some (insertSyntheticRow sp) ∧
    ∀ r, (processBatchOutliers distFn pts).1[i]? = some r →
      r.outlierFlag = none ∧ r.outlierReasonCodes = none ∧
        r.qaStatus = none := by
  have hget : pts.getD i default = insertSyntheticRow sp := by
    rw [List.getD_eq_getElem?_getD, hrow]
    rfl
  have hstep : outlierStep distFn pts i = .error "TypeError" := by
    simp only [outlierStep, hget]
    rfl
  have hpres : (processBatchOutliers distFn pts).1[i]? =
      some (insertSyntheticRow sp) := by
    unfold processBatchOutliers
    rw [foldOutlier_error_getElem distFn pts i "TypeError" hstep
      (List.range pts.length) (pts, 0) rfl]
    exact hrow
  refine ⟨rfl, rfl, rfl, hstep, hpres, ?_⟩
  intro r hr
  rw [hpres] at hr
  obtain rfl := Option.some_inj.1 hr.symm
  exact ⟨rfl, rfl, rfl⟩

/-- C9 (amended, witness): the amended statement at the first synthetic
point of the concrete flight gap, in a one-row batch. -/
theorem synthetic_rows_selected_never_annotated_witness :
    (insertSyntheticRow
      (interpOne gapStartPt gapEndPt 9 "FLIGHT" 0)).isSynthetic =
      some true ∧
    (insertSyntheticRow
      (interpOne gapStartPt gapEndPt 9 "FLIGHT" 0)).outlierFlag = none ∧
    outlierQuerySelects
      (insertSyntheticRow (interpOne gapStartPt gapEndPt 9 "FLIGHT" 0)) =
      true ∧
    outlierStep (fun _ _ _ _ => 0)
      [insertSyntheticRow (interpOne gapStartPt gapEndPt 9 "FLIGHT" 0)] 0 =
      .error "TypeError" ∧
    (processBatchOutliers (fun _ _ _ _ => 0)
      [insertSyntheticRow
        (interpOne gapStartPt gapEndPt 9 "FLIGHT" 0)]).1[0]? =
      some (insertSyntheticRow (interpOne gapStartPt gapEndPt 9 "FLIGHT" 0)) := by
  obtain ⟨h1, h2, h3, h4, h5, _⟩ :=
    synthetic_rows_selected_never_annotated
      (interpOne gapStartPt gapEndPt 9 "FLIGHT" 0) (fun _ _ _ _ => 0)
      [insertSyntheticRow (interpOne gapStartPt gapEndPt 9 "FLIGHT" 0)] 0
      rfl
  exact ⟨h1, h2, h3, h4, h5⟩

/-- The haversine distance is symmetric in its two points. -/
theorem haversineDistR_comm (lat1 lon1 lat2 lon2 : ℝ) :
    haversineDistR lat2 lon2 lat1 lon1 =
      haversineDistR lat1 lon1 lat2 lon2 := by
  unfold haversineDistR
  have hs : ∀ x y : ℝ, Real.sin ((x - y) / 2) ^ 2 =
      Real.sin ((y - x) / 2) ^ 2 := by
    intro x y
    rw [show (x - y) / 2 = -((y - x) / 2) by ring, Real.sin_neg, neg_sq]
  simp only [hs]
  ring_nf

/-- The haversine distance of a point to itself is 0, which is within the
mis-scaled eps: coincident points are DBSCAN neighbors. -/
theorem haversine_self_le_eps :
    haversineDistR 0 0 0 0 ≤ (epsDegrees 200 : ℝ) := by
  have h : haversineDistR 0 0 0 0 = 0 := by
    unfold haversineDistR; norm_num
  rw [h]
  have h2 : (epsDegrees 200 : ℚ) = 200 / 111000 := by norm_num [epsDegrees]
  rw [h2]
  norm_num

/-- The haversine distance between (0, 0) and (0, 180) is 6371000·π
meters. -/
theorem haversine_antipodal_eq :
    haversineDistR 0 0 0 180 = 6371000 * Real.pi := by
  unfold haversineDistR
  norm_num
  ring

/-- Two points on opposite sides of the globe are not DBSCAN neighbors
under the mis-scaled eps (6371000·π meters exceeds 200/111000). -/
theorem haversine_antipodal_gt_eps :
    ¬ (haversineDistR 0 0 0 180 ≤ (epsDegrees 200 : ℝ)) := by
  rw [haversine_antipodal_eq]
  have h2 : (epsDegrees 200 : ℚ) = 200 / 111000 := by norm_num [epsDegrees]
  rw [h2]
  push_neg
  have hpi := Real.pi_gt_three
  push_cast
  nlinarith

/-- C10: the DBSCAN neighborhood predicate of the DENSITY strategy
compares the haversine distance in meters against
`eps = spatial_eps_m / 111000` (with the default 200 m radius,
eps = 1/555 ≈ 0.0018); any two points whose haversine separation exceeds
that eps are in neither one's eps-neighborhood. -/
theorem density_eps_unit_mismatch (spatialEpsM : ℚ) (p q : DPoint)
    (h : (epsDegrees spatialEpsM : ℝ) <
      haversineDistR p.lat p.lon q.lat q.lon) :
    epsDegrees 200 = 1/555 ∧
    ¬ dbscanNeighbor spatialEpsM p q ∧ ¬ dbscanNeighbor spatialEpsM q p := by
  refine ⟨by norm_num [epsDegrees], not_le.2 h, ?_⟩
  unfold dbscanNeighbor
  rw [haversineDistR_comm]
  exact not_le.2 h

/-- C10 (witness): the points (0, 0) and (0, 180) are 6371000·π meters
apart, which exceeds eps = 1/555, so neither is in the other's
neighborhood. -/
theorem density_eps_unit_mismatch_witness :
    epsDegrees 200 = 1/555 ∧
    ¬ dbscanNeighbor 200 (dpt 1 0 0 0) (dpt 2 0 0 180) ∧
    ¬ dbscanNeighbor 200 (dpt 2 0 0 180) (dpt 1 0 0 0) :=
  density_eps_unit_mismatch 200 (dpt 1 0 0 0) (dpt 2 0 0 180)
    (by
      show (epsDegrees 200 : ℝ) <
        haversineDistR ((0 : ℚ) : ℝ) ((0 : ℚ) : ℝ) ((0 : ℚ) : ℝ)
          ((180 : ℚ) : ℝ)
      push_cast
      exact not_le.1 haversine_antipodal_gt_eps)

/-- Every density-strategy stay respects the worker's minimum duration
(the extraction step drops shorter candidates). -/
theorem extractStays_duration (minDur : Int) (pts : List DPoint)
    (labels : List Int) :
    ∀ s ∈ extractStays minDur pts labels,
      minDur ≤ s.durationS ∧ s.durationS = s.endTs - s.startTs := by
  intro s hs
  simp only [extractStays, List.mem_filterMap] at hs
  obtain ⟨l, _, hl⟩ := hs
  rcases hmem : clusterMembers pts labels l with _ | ⟨m0, rest⟩ <;>
    rw [hmem] at hl
  · simp at hl
  · simp only at hl
    split_ifs at hl with hdur
    rw [Option.some_inj] at hl
    subst hl
    exact ⟨not_lt.1 hdur, rfl⟩

/-- The last point of a chronologically sorted group is no earlier than
its first point. -/
theorem head_le_getLastD {first : SPoint} {rest : List SPoint}
    (h : List.Pairwise timeLE (first :: rest)) :
    first.dataTime ≤ (rest.getLastD first).dataTime := by
  rcases List.mem_cons.1 (List.getLastD_mem_cons rest first) with heq | hmem
  · rw [heq]
  · exact (List.pairwise_cons.1 h).1 _ hmem

/-- `spatialCloseAt` either leaves the accumulated stays unchanged or
appends exactly one stay built from the (nonempty) current group, and the
appended stay passed the minimum-duration guard. -/
theorem spatialCloseAt_cases (distC : ℚ → ℚ → ℚ → ℚ → ℚ)
    (hourOf : Int → Nat) (minDur : Int) (stays : List StaySeg)
    (cur : List SPoint) (cLat cLon : ℚ) :
    spatialCloseAt distC hourOf minDur stays cur cLat cLon = stays ∨
    ∃ first rest2, cur = first :: rest2 ∧
      minDur ≤ (rest2.getLastD first).dataTime - first.dataTime ∧
      spatialCloseAt distC hourOf minDur stays cur cLat cLon =
        stays ++ [mkSpatialStay distC hourOf "SPATIAL" first rest2 cLat cLon] := by
  cases cur with
  | nil => exact Or.inl rfl
  | cons first rest2 =>
    by_cases h : 2 ≤ (first :: rest2).length ∧
        minDur ≤ (rest2.getLastD first).dataTime - first.dataTime
    · refine Or.inr ⟨first, rest2, rfl, h.2, ?_⟩
      show (if 2 ≤ (first :: rest2).length ∧
          minDur ≤ (rest2.getLastD first).dataTime - first.dataTime then
        stays ++ [mkSpatialStay distC hourOf "SPATIAL" first rest2 cLat cLon]
        else stays) = _
      rw [if_pos h]
    · refine Or.inl ?_
      show (if 2 ≤ (first :: rest2).length ∧
          minDur ≤ (rest2.getLastD first).dataTime - first.dataTime then
        stays ++ [mkSpatialStay distC hourOf "SPATIAL" first rest2 cLat cLon]
        else stays) = _
      rw [if_neg h]

/-- Invariant of the SPATIAL stay-detection loop: on chronologically
sorted input every emitted stay is well-formed (duration ≥ minimum,
duration = end - start, start ≤ end) and the emitted stays are pairwise
time-disjoint. -/
theorem spatialGo_spec (distC : ℚ → ℚ → ℚ → ℚ → ℚ) (hourOf : Int → Nat)
    (radius : ℚ) (minDur : Int) :
    ∀ (input : List SPoint) (stays : List StaySeg) (cur : List SPoint),
      List.Pairwise timeLE input →
      List.Pairwise timeLE cur →
      (∀ q ∈ cur, ∀ r ∈ input, q.dataTime ≤ r.dataTime) →
      (∀ s ∈ stays, StayWellFormed minDur s) →
      List.Pairwise stayDisjointLE stays →
      (∀ s ∈ stays, ∀ q ∈ cur, s.endTime ≤ q.dataTime) →
      (∀ s ∈ stays, ∀ r ∈ input, s.endTime ≤ r.dataTime) →
      (∀ s ∈ spatialGo distC hourOf radius minDur input stays cur,
        StayWellFormed minDur s) ∧
      List.Pairwise stayDisjointLE
        (spatialGo distC hourOf radius minDur input stays cur) := by
  intro input
  induction input with
  | nil =>
    intro stays cur _ hcur _ hP hPW hbcur _
    rw [show spatialGo distC hourOf radius minDur [] stays cur =
      spatialCloseAt distC hourOf minDur stays cur (meanLat cur) (meanLon cur)
      from rfl]
    rcases spatialCloseAt_cases distC hourOf minDur stays cur
        (meanLat cur) (meanLon cur) with heq | ⟨first, rest2, hcur2, hdur, heq⟩
    · rw [heq]; exact ⟨hP, hPW⟩
    · rw [heq]
      subst hcur2
      constructor
      · intro s hs
        rcases List.mem_append.1 hs with h | h
        · exact hP s h
        · rcases List.mem_singleton.1 h with rfl
          exact ⟨hdur, rfl, head_le_getLastD hcur⟩
      · rw [List.pairwise_append]
        refine ⟨hPW, List.pairwise_singleton _ _, ?_⟩
        intro a ha b hb
        rcases List.mem_singleton.1 hb with rfl
        show a.endTime ≤ first.dataTime
        exact hbcur a ha first (List.mem_cons_self _ _)
  | cons p rest ih =>
    intro stays cur hinput hcur hcurin hP hPW hbcur hbin
    have hinput2 : List.Pairwise timeLE rest := List.Pairwise.of_cons hinput
    have hprest : ∀ r ∈ rest, p.dataTime ≤ r.dataTime :=
      (List.pairwise_cons.1 hinput).1
    cases cur with
    | nil =>
      rw [show spatialGo distC hourOf radius minDur (p :: rest) stays [] =
        spatialGo distC hourOf radius minDur rest stays [p] from rfl]
      apply ih _ [p] hinput2 (List.pairwise_singleton _ _)
      · intro q hq r hr
        rcases List.mem_singleton.1 hq with rfl
        exact hprest r hr
      · exact hP
      · exact hPW
      · intro s hs q hq
        rcases List.mem_singleton.1 hq with rfl
        exact hbin s hs q (List.mem_cons_self _ _)
      · intro s hs r hr
        exact hbin s hs r (List.mem_cons_of_mem _ hr)
    | cons first curRest =>
      by_cases hdist : distC p.lat p.lon (meanLat (first :: curRest))
          (meanLon (first :: curRest)) ≤ radius
      · rw [show spatialGo distC hourOf radius minDur (p :: rest) stays
            (first :: curRest) =
          spatialGo distC hourOf radius minDur rest stays
            ((first :: curRest) ++ [p]) from by
          simp only [spatialGo, if_pos hdist]]
        apply ih _ ((first :: curRest) ++ [p]) hinput2
        · rw [List.pairwise_append]
          refine ⟨hcur, List.pairwise_singleton _ _, ?_⟩
          intro a ha b hb
          rcases List.mem_singleton.1 hb with rfl
          exact hcurin a ha b (List.mem_cons_self _ _)
        · intro q hq r hr
          rcases List.mem_append.1 hq with h | h
          · exact hcurin q h r (List.mem_cons_of_mem _ hr)
          · rcases List.mem_singleton.1 h with rfl
            exact hprest r hr
        · exact hP
        · exact hPW
        · intro s hs q hq
          rcases List.mem_append.1 hq with h | h
          · exact hbcur s hs q h
          · rcases List.mem_singleton.1 h with rfl
            exact hbin s hs q (List.mem_cons_self _ _)
        · intro s hs r hr
          exact hbin s hs r (List.mem_cons_of_mem _ hr)
      · rw [show spatialGo distC hourOf radius minDur (p :: rest) stays
            (first :: curRest) =
          spatialGo distC hourOf radius minDur rest
            (spatialCloseAt distC hourOf minDur stays (first :: curRest)
              (meanLat (first :: curRest)) (meanLon (first :: curRest)))
            [p] from by
          simp only [spatialGo, if_neg hdist]]
        rcases spatialCloseAt_cases distC hourOf minDur stays
            (first :: curRest) (meanLat (first :: curRest))
            (meanLon (first :: curRest)) with heq | ⟨f2, r2, hcur2, hdur, heq⟩
        · rw [heq]
          apply ih _ [p] hinput2 (List.pairwise_singleton _ _)
          · intro q hq r hr
            rcases List.mem_singleton.1 hq with rfl
            exact hprest r hr
          · exact hP
          · exact hPW
          · intro s hs q hq
            rcases List.mem_singleton.1 hq with rfl
            exact hbin s hs q (List.mem_cons_self _ _)
          · intro s hs r hr
            exact hbin s hs r (List.mem_cons_of_mem _ hr)
        · obtain ⟨hf2, hr2⟩ := List.cons.inj hcur2
          subst hf2
          subst hr2
          rw [heq]
          have hlastmem : curRest.getLastD first ∈ first :: curRest :=
            List.getLastD_mem_cons curRest first
          have hnewP : StayWellFormed minDur
              (mkSpatialStay distC hourOf "SPATIAL" first curRest
                (meanLat (first :: curRest)) (meanLon (first :: curRest))) :=
            ⟨hdur, rfl, head_le_getLastD hcur⟩
          apply ih _ [p] hinput2 (List.pairwise_singleton _ _)
          · intro q hq r hr
            rcases List.mem_singleton.1 hq with rfl
            exact hprest r hr
          · intro s hs
            rcases List.mem_append.1 hs with h | h
            · exact hP s h
            · rcases List.mem_singleton.1 h with rfl
              exact hnewP
          · rw [List.pairwise_append]
            refine ⟨hPW, List.pairwise_singleton _ _, ?_⟩
            intro a ha b hb
            rcases List.mem_singleton.1 hb with rfl
            show a.endTime ≤ first.dataTime
            exact hbcur a ha first (List.mem_cons_self _ _)
          · intro s hs q hq
            rcases List.mem_singleton.1 hq with rfl
            rcases List.mem_append.1 hs with h | h
            · exact hbin s h q (List.mem_cons_self _ _)
            · rcases List.mem_singleton.1 h with rfl
              show (curRest.getLastD first).dataTime ≤ q.dataTime
              exact hcurin _ hlastmem q (List.mem_cons_self _ _)
          · intro s hs r hr
            rcases List.mem_append.1 hs with h | h
            · exact hbin s h r (List.mem_cons_of_mem _ hr)
            · rcases List.mem_singleton.1 h with rfl
              show (curRest.getLastD first).dataTime ≤ r.dataTime
              exact hcurin _ hlastmem r (List.mem_cons_of_mem _ hr)

/-- C3 (counterexample): six points alternating between two locations
6371000·π meters apart (so coincident points are DBSCAN neighbors under
the mis-scaled eps, the two locations are not) — one density-strategy run
emits two stays spanning [0, 6000] and [1000, 4000], which overlap in
time, refuting "no two StaySegments of the same strategy overlap". -/
theorem density_stays_overlap_counterexample :
    haversineDistR 0 0 0 0 ≤ (epsDegrees 200 : ℝ) ∧
    ¬ (haversineDistR 0 0 0 180 ≤ (epsDegrees 200 : ℝ)) ∧
    (c3DensityPts.map fun p => (p.lat, p.lon)) =
      [(0, 0), (0, 180), (0, 180), (0, 0), (0, 180), (0, 0)] ∧
    timeSpans (densityStayDetection sameCoordNbr c3DensityPts) =
      [(0, 6000), (1000, 4000)] ∧
    hasOverlappingSpan
      (timeSpans (densityStayDetection sameCoordNbr c3DensityPts)) = true :=
  ⟨haversine_self_le_eps, haversine_antipodal_gt_eps, rfl,
    by decide, by decide⟩

/-- C3 (amended): every emitted StaySegment has duration at least the
configured minimum (default 7200 s for SPATIAL, 1800 s for DENSITY), and
SPATIAL stays detected from a chronologically ordered batch are pairwise
time-disjoint; DENSITY stays, however, may overlap in time when two
spatial clusters interleave. -/
theorem stay_min_duration_and_disjoint (distC : ℚ → ℚ → ℚ → ℚ → ℚ)
    (hourOf : Int → Nat) (radius : ℚ) (minDur : Int) (pts : List SPoint)
    (nbr : DPoint → DPoint → Bool) (dpts : List DPoint)
    (hsorted : List.Pairwise timeLE pts) :
    (∀ s ∈ detectSpatialStays distC hourOf radius minDur pts,
      StayWellFormed minDur s) ∧
    List.Pairwise stayDisjointLE
      (detectSpatialStays distC hourOf radius minDur pts) ∧
    (∀ s ∈ densityStayDetection nbr dpts,
      1800 ≤ s.durationS ∧ s.durationS = s.endTs - s.startTs) := by
  obtain ⟨h1, h2⟩ := spatialGo_spec distC hourOf radius minDur pts [] []
    hsorted List.Pairwise.nil (by simp) (by simp) List.Pairwise.nil
    (by simp) (by simp)
  exact ⟨h1, h2, extractStays_duration 1800 dpts _⟩

/-- C3 (amended, witness): the amended statement at a concrete SPATIAL
batch (two coincident points 7200 s apart) and the concrete DENSITY
input. -/
theorem stay_min_duration_and_disjoint_witness :
    (∀ s ∈ detectSpatialStays geomZeroS noonHourOf 100 7200 w3Pts,
      StayWellFormed 7200 s) ∧
    List.Pairwise stayDisjointLE
      (detectSpatialStays geomZeroS noonHourOf 100 7200 w3Pts) ∧
    (∀ s ∈ densityStayDetection sameCoordNbr c8Pts,
      1800 ≤ s.durationS ∧ s.durationS = s.endTs - s.startTs) :=
  stay_min_duration_and_disjoint geomZeroS noonHourOf 100 7200 w3Pts
    sameCoordNbr c8Pts (by decide)


/-- Folding `max` over a constant block dominated by the block value. -/
theorem foldr_max_replicate_of_le (m : Nat) (c b : Int) (hb : b ≤ c)
    (hm : 1 ≤ m) : (List.replicate m c).foldr max b = c := by
  induction m with
  | zero => omega
  | succ k ih =>
    rw [List.replicate_succ, List.foldr_cons]
    rcases Nat.eq_or_lt_of_le hm with h | h
    · have hk : k = 0 := by omega
      subst hk
      show max c b = c
      exact max_eq_left hb
    · rw [ih (by omega)]
      exact max_self c

/-- Folding `max` over a constant block dominated by the seed. -/
theorem foldr_max_replicate_of_ge (m : Nat) (c b : Int) (hb : c ≤ b) :
    (List.replicate m c).foldr max b = b := by
  induction m with
  | zero => rfl
  | succ k ih =>
    rw [List.replicate_succ, List.foldr_cons, ih]
    exact max_eq_right hb

/-- A single-cluster labelling contributes the one cluster label 0. -/
theorem clusterLabelList_replicate (n : Nat) (hn : 1 ≤ n) :
    clusterLabelList (List.replicate n (0 : Int)) = [0] := by
  unfold clusterLabelList
  rw [foldr_max_replicate_of_le n 0 (-1) (by omega) hn]
  have hcont : (List.replicate n (0 : Int)).contains 0 = true := by
    rcases n with _ | k
    · omega
    · simp [List.replicate_succ]
  show (((List.range ((0 : Int) + 1).toNat).map fun k => (k : Int)).filter
    fun l => (List.replicate n (0 : Int)).contains l) = [0]
  rw [show ((0 : Int) + 1).toNat = 1 from rfl,
    show List.range 1 = [0] from rfl]
  show ([(0 : Int)].filter fun l => (List.replicate n (0 : Int)).contains l)
    = [0]
  rw [List.filter_cons]
  simp [hcont]
  omega

/-- Under an all-zero labelling, cluster 0's members are all the points. -/
theorem clusterMembers_replicate (pts : List DPoint) :
    clusterMembers pts (List.replicate pts.length 0) 0 = pts := by
  induction pts with
  | nil => rfl
  | cons p rest ih =>
    simp only [List.length_cons, List.replicate_succ]
    unfold clusterMembers at ih ⊢
    simp only [List.zip_cons_cons, List.filter_cons]
    norm_num
    exact ih

/-- Inserting below every element of a list prepends. -/
theorem insertByKey_of_le {α : Type} (key : α → Int) (a : α) (l : List α)
    (h : ∀ b ∈ l, key a ≤ key b) : insertByKey key a l = a :: l := by
  cases l with
  | nil => rfl
  | cons q rest =>
    unfold insertByKey
    rw [if_pos (h q (List.mem_cons_self _ _))]

/-- Sorting an already key-sorted list is the identity. -/
theorem sortByKey_of_pairwise {α : Type} (key : α → Int) (l : List α)
    (h : List.Pairwise (fun x y => key x ≤ key y) l) :
    sortByKey key l = l := by
  induction l with
  | nil => rfl
  | cons a rest ih =>
    unfold sortByKey
    rw [ih (List.Pairwise.of_cons h)]
    exact insertByKey_of_le key a rest (List.pairwise_cons.1 h).1

/-- With pairwise-distinct ids, looking a point's id up by `findIdx`
recovers its position. -/
theorem findIdx_id_of_nodup (pts : List DPoint)
    (hids : (pts.map (·.id)).Nodup) :
    ∀ (i : Nat) (hi : i < pts.length),
      pts.findIdx (fun r => r.id = (pts.get ⟨i, hi⟩).id) = i := by
  induction pts with
  | nil => intro i hi; simp at hi
  | cons p rest ih =>
    intro i hi
    simp only [List.map_cons, List.nodup_cons] at hids
    cases i with
    | zero =>
      rw [List.findIdx_cons]
      simp
    | succ k =>
      have hk : k < rest.length := by simpa using hi
      have hget : (p :: rest).get ⟨k + 1, hi⟩ = rest.get ⟨k, hk⟩ := rfl
      rw [hget, List.findIdx_cons]
      have hne : ¬ (p.id = (rest.get ⟨k, hk⟩).id) := by
        intro heq
        apply hids.1
        rw [heq]
        exact List.mem_map_of_mem _ (rest.get_mem k hk)
      simp only [hne, decide_False, cond_false]
      rw [ih hids.2 k hk]

/-- Elementwise effect of folding `List.set` over a list of positions. -/
theorem foldl_set_getElem (positions : List Nat) (v : Int) :
    ∀ (L : List Int) (j : Nat),
      ((positions.foldl (fun acc p2 => acc.set p2 v) L))[j]? =
        if j ∈ positions ∧ j < L.length then some v else L[j]? := by
  induction positions with
  | nil => intro L j; simp
  | cons p2 ps ih =>
    intro L j
    rw [List.foldl_cons, ih (L.set p2 v) j, List.length_set]
    rcases Nat.lt_or_ge j L.length with hj | hj
    · by_cases hps : j ∈ ps
      · simp [hps, hj]
      · have hset : (L.set p2 v)[j]? = if p2 = j then some v else L[j]? := by
          rw [List.getElem?_set]
          by_cases hpj : p2 = j
          · subst hpj
            simp [hj]
          · simp [hpj]
        rw [if_neg (fun h => hps h.1), hset]
        by_cases hpj : p2 = j
        · subst hpj
          rw [if_pos rfl, if_pos ⟨List.mem_cons_self _ _, hj⟩]
        · rw [if_neg hpj, if_neg (fun h => ?_)]
          rcases List.mem_cons.1 h.1 with h2 | h2
          · exact hpj h2.symm
          · exact hps h2
    · have h1 : L[j]? = none := List.getElem?_eq_none hj
      have h2 : (L.set p2 v)[j]? = none :=
        List.getElem?_eq_none (by simpa using hj)
      rw [if_neg (fun h => absurd h.2 (by omega)), h2,
        if_neg (fun h => absurd h.2 (by omega)), h1]

/-- Membership in a dropped range. -/
theorem mem_range_drop (i n j : Nat) :
    j ∈ (List.range n).drop i ↔ i ≤ j ∧ j < n := by
  rw [List.mem_iff_getElem?]
  constructor
  · rintro ⟨k, hk⟩
    rw [List.getElem?_drop] at hk
    rcases Nat.lt_or_ge (i + k) n with hlt | hge
    · rw [List.getElem?_range hlt] at hk
      obtain rfl := Option.some_inj.1 hk
      omega
    · rw [List.getElem?_eq_none (by simpa using hge)] at hk
      cases hk
  · rintro ⟨h1, h2⟩
    refine ⟨j - i, ?_⟩
    rw [List.getElem?_drop, show i + (j - i) = j by omega]
    exact List.getElem?_range h2

/-- The id lookups of a dropped suffix are exactly the dropped positions. -/
theorem relabel_positions (pts : List DPoint)
    (hids : (pts.map (·.id)).Nodup) (i : Nat) :
    (pts.drop i).map (fun q => pts.findIdx fun r => r.id = q.id) =
      (List.range pts.length).drop i := by
  apply List.ext_getElem?
  intro k
  rw [List.getElem?_map, List.getElem?_drop, List.getElem?_drop]
  rcases Nat.lt_or_ge (i + k) pts.length with hlt | hge
  · rw [List.getElem?_eq_getElem hlt, List.getElem?_range hlt]
    simp only [Option.map_some']
    congr 1
    exact findIdx_id_of_nodup pts hids (i + k) hlt
  · rw [List.getElem?_eq_none hge,
      List.getElem?_eq_none (by simpa using hge)]
    rfl

/-- Elementwise effect of the relabelling loop on a dropped suffix. -/
theorem relabel_drop_getElem (pts : List DPoint)
    (hids : (pts.map (·.id)).Nodup) (i : Nat) (v : Int) (L : List Int)
    (hL : L.length = pts.length) (j : Nat) :
    (relabelSuffix pts (pts.drop i) v L)[j]? =
      if i ≤ j ∧ j < pts.length then some v else L[j]? := by
  unfold relabelSuffix
  have hfold : (List.foldl
      (fun acc q => acc.set (List.findIdx (fun r => decide (r.id = q.id)) pts) v)
      L (List.drop i pts)) =
      (((pts.drop i).map fun q =>
        pts.findIdx fun r => r.id = q.id).foldl
          (fun acc p2 => acc.set p2 v) L) := by
    rw [List.foldl_map]
  rw [hfold, relabel_positions pts hids i, foldl_set_getElem, hL]
  by_cases h : i ≤ j ∧ j < pts.length
  · rw [if_pos ⟨(mem_range_drop i pts.length j).2 h, h.2⟩, if_pos h]
  · rw [if_neg (fun h2 => h ⟨((mem_range_drop i pts.length j).1 h2.1).1,
      h2.2⟩), if_neg h]

/-- The gap scan of one cluster: `none` means no excess gap at all, and a
found index is at least 1, within the cluster, and witnesses at least one
excess gap. -/
theorem firstGapIdxAux_spec (maxGap : Int) :
    ∀ (l : List DPoint) (prev : DPoint) (i0 : Nat),
      (firstGapIdxAux maxGap prev l i0 = none ↔
        ((prev :: l).zip l).countP
          (fun pq => decide (pq.2.dataTime - pq.1.dataTime > maxGap)) = 0) ∧
      (∀ j, firstGapIdxAux maxGap prev l i0 = some j →
        i0 ≤ j ∧ j < i0 + l.length ∧
        1 ≤ ((prev :: l).zip l).countP
          (fun pq => decide (pq.2.dataTime - pq.1.dataTime > maxGap))) := by
  intro l
  induction l with
  | nil =>
    intro prev i0
    refine ⟨by simp [firstGapIdxAux], ?_⟩
    intro j hj
    simp [firstGapIdxAux] at hj
  | cons q rest ih =>
    intro prev i0
    have hzip : ((prev :: q :: rest).zip (q :: rest)) =
        (prev, q) :: ((q :: rest).zip rest) := rfl
    have haux : firstGapIdxAux maxGap prev (q :: rest) i0 =
        if q.dataTime - prev.dataTime > maxGap then some i0
        else firstGapIdxAux maxGap q rest (i0 + 1) := rfl
    by_cases hgap : q.dataTime - prev.dataTime > maxGap
    · rw [haux, if_pos hgap]
      constructor
      · rw [hzip, List.countP_cons]
        simp [hgap]
      · intro j hj
        rw [Option.some_inj] at hj
        subst hj
        refine ⟨Nat.le_refl i0, by simp [List.length_cons], ?_⟩
        rw [hzip, List.countP_cons]
        simp [hgap]
    · rw [haux, if_neg hgap]
      have hcount : ((prev :: q :: rest).zip (q :: rest)).countP
          (fun pq => decide (pq.2.dataTime - pq.1.dataTime > maxGap)) =
          ((q :: rest).zip rest).countP
            (fun pq => decide (pq.2.dataTime - pq.1.dataTime > maxGap)) := by
        rw [hzip, List.countP_cons]
        simp [hgap]
      obtain ⟨ih1, ih2⟩ := ih q (i0 + 1)
      constructor
      · rw [hcount]
        exact ih1
      · intro j hj
        obtain ⟨h1, h2, h3⟩ := ih2 j hj
        rw [hcount]
        refine ⟨by omega, by simp only [List.length_cons]; omega, h3⟩

/-- Relabelling the suffix of a single all-zero cluster from position `i`
yields the two-block labelling: `i` zeros then ones. -/
theorem relabel_shape (pts : List DPoint)
    (hids : (pts.map (·.id)).Nodup) (i : Nat) (hi2 : i < pts.length) :
    relabelSuffix pts (pts.drop i) 1 (List.replicate pts.length 0) =
      List.replicate i 0 ++ List.replicate (pts.length - i) 1 := by
  apply List.ext_getElem?
  intro j
  rw [relabel_drop_getElem pts hids i 1 _ (by simp) j]
  rcases Nat.lt_or_ge j i with hj | hj
  · rw [if_neg (fun h => by omega), List.getElem?_replicate,
      if_pos (by omega), List.getElem?_append]
    rw [List.length_replicate, if_pos hj, List.getElem?_replicate, if_pos hj]
  · rcases Nat.lt_or_ge j pts.length with hj2 | hj2
    · rw [if_pos ⟨hj, hj2⟩, List.getElem?_append]
      rw [List.length_replicate, if_neg (by omega), List.getElem?_replicate]
      rw [if_pos (by omega)]
    · rw [if_neg (fun h => by omega), List.getElem?_replicate,
        if_neg (by omega), List.getElem?_eq_none]
      simp only [List.length_append, List.length_replicate]
      omega

/-- A zeros-then-ones labelling carries exactly two groups. -/
theorem groupCount_two_blocks (i m : Nat) (hi : 1 ≤ i) (hm : 1 ≤ m) :
    groupCount (List.replicate i (0 : Int) ++ List.replicate m 1) = 2 := by
  unfold groupCount clusterLabelList
  rw [List.foldr_append, foldr_max_replicate_of_le m 1 (-1) (by omega) hm,
    foldr_max_replicate_of_ge i 0 1 (by omega)]
  have h0 : (List.replicate i (0 : Int) ++
      List.replicate m 1).contains 0 = true := by
    simp [List.mem_replicate]
    omega
  have h1 : (List.replicate i (0 : Int) ++
      List.replicate m 1).contains 1 = true := by
    simp [List.mem_replicate]
    omega
  rw [show ((1 : Int) + 1).toNat = 2 from rfl,
    show List.range 2 = [0, 1] from rfl]
  show (([(0 : Int), 1]).filter fun l => ((List.replicate i (0 : Int) ++
    List.replicate m 1).contains l)).length = 2
  rw [List.filter_cons, List.filter_cons]
  simp only [h0, h1, List.filter_nil]
  norm_num

/-- C8 (amended): `filter_by_temporal_continuity` splits a DBSCAN cluster
only at the FIRST position whose time gap exceeds the maximum (the loop
`break`s after one split, relabelling everything from that position on
with a single new label), so a (time-sorted, id-distinct) cluster
containing k excess gaps yields min(k + 1, 2) temporally contiguous
groups — 2 whenever k ≥ 1 — not k + 1. -/
theorem filter_splits_only_first_gap (pts : List DPoint)
    (hne : pts ≠ [])
    (hsorted : List.Pairwise (fun a b : DPoint => a.dataTime ≤ b.dataTime) pts)
    (hids : (pts.map (·.id)).Nodup) :
    groupCount (filterByTemporalContinuity 3600 pts
      (List.replicate pts.length 0)) =
      min (excessGapCount 3600 pts + 1) 2 := by
  have hn : 1 ≤ pts.length := List.length_pos.2 hne
  unfold filterByTemporalContinuity
  rw [clusterLabelList_replicate pts.length hn,
    foldr_max_replicate_of_le pts.length 0 (-1) (by omega) hn,
    List.foldl_cons, List.foldl_nil]
  simp only [filterStep]
  rw [clusterMembers_replicate pts, sortByKey_of_pairwise _ pts hsorted]
  cases pts with
  | nil => exact absurd rfl hne
  | cons p rest =>
    obtain ⟨hnone, hsome⟩ := firstGapIdxAux_spec 3600 rest p 1
    have hfgi : firstGapIdx 3600 (p :: rest) =
        firstGapIdxAux 3600 p rest 1 := rfl
    have hex : excessGapCount 3600 (p :: rest) =
        ((p :: rest).zip rest).countP
          (fun pq => decide (pq.2.dataTime - pq.1.dataTime > 3600)) := rfl
    cases hfg : firstGapIdxAux 3600 p rest 1 with
    | none =>
      rw [hfgi, hfg]
      rw [hex, hnone.1 hfg]
      rw [groupCount, clusterLabelList_replicate (p :: rest).length
        (by simp)]
      rfl
    | some i2 =>
      obtain ⟨hi1, hi2, hcnt⟩ := hsome i2 hfg
      rw [hfgi, hfg]
      show groupCount (relabelSuffix (p :: rest)
        ((p :: rest).drop i2) ((0 : Int) + 1)
        (List.replicate (p :: rest).length 0)) = _
      rw [show ((0 : Int) + 1) = 1 from rfl]
      rw [relabel_shape (p :: rest) hids i2
        (by simp only [List.length_cons]; omega)]
      rw [groupCount_two_blocks i2 ((p :: rest).length - i2) (by omega)
        (by simp only [List.length_cons]; omega)]
      rw [hex]
      have h2 : 1 ≤ ((p :: rest).zip rest).countP
          (fun pq => decide (pq.2.dataTime - pq.1.dataTime > 3600)) := hcnt
      omega

/-- C8 (amended, witness): the amended statement at the concrete
three-point cluster with two excess gaps (min(2 + 1, 2) = 2 groups). -/
theorem filter_splits_only_first_gap_witness :
    groupCount (filterByTemporalContinuity 3600 c8Pts
      (List.replicate c8Pts.length 0)) =
      min (excessGapCount 3600 c8Pts + 1) 2 :=
  filter_splits_only_first_gap c8Pts (by decide) (by decide) (by decide)

/-- C8 (counterexample): a DBSCAN cluster of three coincident points (so
all mutually neighbors under the real haversine predicate) with two
excess gaps is split into 2 groups, not 2 + 1 = 3: the split happens only
at the first excess gap. -/
theorem cluster_split_counterexample :
    haversineDistR 0 0 0 0 ≤ (epsDegrees 200 : ℝ) ∧
    dbscanLabels sameCoordNbr 3 c8Pts = [0, 0, 0] ∧
    excessGapCount 3600 c8Pts = 2 ∧
    filterByTemporalContinuity 3600 c8Pts [0, 0, 0] = [0, 1, 1] ∧
    groupCount (filterByTemporalContinuity 3600 c8Pts [0, 0, 0]) = 2 ∧
    (2 : Nat) ≠ 2 + 1 :=
  ⟨haversine_self_le_eps, by decide, by decide, by decide, by decide,
    by decide⟩


end Records
